import Mathlib

/-!
# GBA-Pong: the frame loop of `main.c`

A shallow embedding of the game state and of one iteration of the `while (1)`
loop of `main` (`src/main.c`, lines 47-135), and theorems about it.

Modelling conventions.

* C `int` values (positions, velocities) are Lean `Int`. All positions are
  clamped to the screen every frame; signed overflow of a velocity is undefined
  behaviour in C and lies outside the model.
* `frames_until_ball_release` (a `uint8`) is a `Nat`; it is only decremented
  under the guard `> 0` and only assigned `32`, so it never wraps.
* The raw value read from `REG_KEY_INPUT` is the input of a frame.
* The writes to OAM (`setObjectPosition`, `setObjectStartTile`) are outputs
  that the loop never reads back; they are not part of the state.
* One call of `step` is one iteration of the loop body after the two
  busy-wait loops on `REG_DISPLAY_VCOUNT`.
-/

namespace GBAPong

/-- The C `struct v2`: a pair of `int`s. -/
structure V2 where
  x : Int
  y : Int
deriving DecidableEq, Repr

/-- The C `rect_t`: an origin, a width and a height. -/
structure Rect where
  pos : V2
  w : Int
  h : Int
deriving DecidableEq, Repr

/-- Modelled from the spec: `SCREEN_WIDTH` of the absent `memory_constants.h`;
the screen is 240 pixels wide. -/
def SCREEN_WIDTH : Int := 240

/-- Modelled from the spec: `SCREEN_HEIGHT` of the absent `memory_constants.h`;
the screen is 160 pixels high. -/
def SCREEN_HEIGHT : Int := 160

/-- Modelled from the spec: `KEY_UP` of the absent `memory_constants.h`, the
bit of the key register that reports the "up" key. -/
def KEY_UP : Nat := 0x0040

/-- Modelled from the spec: `KEY_DOWN` of the absent `memory_constants.h`, the
bit of the key register that reports the "down" key. -/
def KEY_DOWN : Nat := 0x0080

/-- Modelled from the spec: `KEY_ANY` of the absent `memory_constants.h`, the
mask of the recognised keys. -/
def KEY_ANY : Nat := 0x03FF

/-- Modelled from the spec: `clamp` of the absent `objects.h`; the value
restricted to `[low, high]`. -/
def clamp (value low high : Int) : Int :=
  if value < low then low else if value > high then high else value

/-- Modelled from the spec: `intersects` of the absent `objects.h`; the two
axis-aligned rectangles overlap on both axes, rectangles that only touch along
an edge do not intersect. -/
def intersects (a b : Rect) : Bool :=
  decide (a.pos.x < b.pos.x + b.w) && decide (b.pos.x < a.pos.x + a.w) &&
  decide (a.pos.y < b.pos.y + b.h) && decide (b.pos.y < a.pos.y + a.h)

/-- Line 47. -/
def paddle_width : Int := 8
/-- Line 47. -/
def paddle_height : Int := 32
/-- Line 47. -/
def ball_width : Int := 8
/-- Line 47. -/
def ball_height : Int := 8
/-- Line 48. -/
def paddle_max_y : Int := SCREEN_HEIGHT - paddle_height
/-- Line 49. -/
def ball_max_clamp : V2 := ⟨SCREEN_WIDTH - ball_width, SCREEN_HEIGHT - ball_height⟩
/-- Line 50; the variable is never assigned again. -/
def player_velocity : Int := 2
/-- Line 51. -/
def start_ball_vel : V2 := ⟨2, 1⟩
/-- Line 51. -/
def start_ball_pos : V2 := ⟨22, 96⟩

/-- The variables of `main` that the loop reads and writes. -/
structure State where
  player_pos : V2
  enemy_pos : V2
  ball_pos : V2
  ball_vel : V2
  frames_until_ball_release : Nat
deriving DecidableEq, Repr

/-- The state on entry to the loop (lines 52-55 and 65). -/
def initial : State :=
  { player_pos := ⟨5, 96⟩
    enemy_pos := ⟨SCREEN_WIDTH - paddle_width - 5, 96⟩
    ball_pos := start_ball_pos
    ball_vel := start_ball_vel
    frames_until_ball_release := 32 }

/-- Line 77: `key_states = ~REG_KEY_INPUT & KEY_ANY` on 32-bit words. -/
def key_states (reg : Nat) : Nat :=
  (2 ^ 32 - 1 - reg % 2 ^ 32) &&& KEY_ANY

/-- Lines 80-87: the player paddle follows the keys, "up" first, then "down". -/
def movePlayer (reg : Nat) (s : State) : State :=
  let s1 : State :=
    if key_states reg &&& KEY_UP ≠ 0 then
      { s with player_pos :=
          ⟨s.player_pos.x, clamp (s.player_pos.y - player_velocity) 0 paddle_max_y⟩ }
    else s
  if key_states reg &&& KEY_DOWN ≠ 0 then
    { s1 with player_pos :=
        ⟨s1.player_pos.x, clamp (s1.player_pos.y + player_velocity) 0 paddle_max_y⟩ }
  else s1

/-- Lines 90-96: the enemy paddle tracks the ball. -/
def moveEnemy (s : State) : State :=
  if s.ball_pos.y ≤ s.enemy_pos.y + ball_height / 2 then
    { s with enemy_pos :=
        ⟨s.enemy_pos.x, clamp (s.enemy_pos.y - player_velocity) 0 paddle_max_y⟩ }
  else if s.ball_pos.y ≥ s.enemy_pos.y + paddle_height - ball_height / 2 then
    { s with enemy_pos :=
        ⟨s.enemy_pos.x, clamp (s.enemy_pos.y + player_velocity) 0 paddle_max_y⟩ }
  else s

/-- The rectangle of the ball, `(rect_t) {ball_pos, ball_width, ball_height}`. -/
def ballRect (s : State) : Rect := ⟨s.ball_pos, ball_width, ball_height⟩

/-- The rectangle of the player paddle,
`(rect_t) {player_pos, paddle_width, paddle_height}`. -/
def playerRect (s : State) : Rect := ⟨s.player_pos, paddle_width, paddle_height⟩

/-- The rectangle of the enemy paddle,
`(rect_t) {enemy_pos, paddle_width, paddle_height}`. -/
def enemyRect (s : State) : Rect := ⟨s.enemy_pos, paddle_width, paddle_height⟩

/-- Lines 101-107: the response to the ball hitting the player paddle. -/
def hitPlayer (s : State) : State :=
  { s with
    ball_pos := ⟨s.player_pos.x + paddle_width, s.ball_pos.y⟩
    ball_vel :=
      ⟨-s.ball_vel.x,
        if s.ball_pos.y - s.player_pos.y > paddle_height * 3 / 4 then s.ball_vel.y + 1
        else if s.ball_pos.y - s.player_pos.y < paddle_height / 4 then s.ball_vel.y - 1
        else s.ball_vel.y⟩ }

/-- Lines 111-117: the response to the ball hitting the enemy paddle. -/
def hitEnemy (s : State) : State :=
  { s with
    ball_pos := ⟨s.enemy_pos.x - paddle_width, s.ball_pos.y⟩
    ball_vel :=
      ⟨-s.ball_vel.x,
        if s.ball_pos.y - s.enemy_pos.y > paddle_height * 3 / 4 then s.ball_vel.y + 1
        else if s.ball_pos.y - s.enemy_pos.y < paddle_height / 4 then s.ball_vel.y - 1
        else s.ball_vel.y⟩ }

/-- Lines 121-127: a ball at a horizontal bound is served again. -/
def respawn (s : State) : State :=
  if s.ball_pos.x ≤ 0 ∨ s.ball_pos.x ≥ ball_max_clamp.x then
    { s with
      ball_vel := start_ball_vel
      ball_pos :=
        ⟨s.player_pos.x + paddle_width * 2,
          s.player_pos.y + paddle_height / 2 - ball_height / 2⟩
      frames_until_ball_release := 32 }
  else s

/-- Line 128: a ball at a vertical bound has its vertical velocity negated. -/
def wallBounce (s : State) : State :=
  if s.ball_pos.y ≤ 0 ∨ s.ball_pos.y ≥ ball_max_clamp.y then
    { s with ball_vel := ⟨s.ball_vel.x, -s.ball_vel.y⟩ }
  else s

/-- Lines 98-129: the three-way collision resolution. -/
def collide (s : State) : State :=
  if intersects (ballRect s) (playerRect s) then hitPlayer s
  else if intersects (ballRect s) (enemyRect s) then hitEnemy s
  else wallBounce (respawn s)

/-- Lines 132-133: the ball moves by its velocity and is clamped to the screen. -/
def moveBall (s : State) : State :=
  { s with ball_pos :=
      ⟨clamp (s.ball_pos.x + s.ball_vel.x) 0 ball_max_clamp.x,
        clamp (s.ball_pos.y + s.ball_vel.y) 0 ball_max_clamp.y⟩ }

/-- The paddles as the collision test of lines 98 and 109 sees them: after the
player movement and the enemy movement of the frame. -/
def movePaddles (reg : Nat) (s : State) : State := moveEnemy (movePlayer reg s)

/-- One iteration of the loop body (lines 71-134) on the key register value
`reg`. -/
def step (reg : Nat) (s : State) : State :=
  if s.frames_until_ball_release > 0 then
    { s with frames_until_ball_release := s.frames_until_ball_release - 1 }
  else moveBall (collide (movePaddles reg s))

/-- The state after the frames whose key register values are `regs`, in order. -/
def run (regs : List Nat) (s : State) : State := regs.foldl (fun t r => step r t) s

/-- All four clamped coordinates are within their ranges. -/
def InBounds (s : State) : Prop :=
  (0 ≤ s.player_pos.y ∧ s.player_pos.y ≤ 128) ∧
  (0 ≤ s.enemy_pos.y ∧ s.enemy_pos.y ≤ 128) ∧
  (0 ≤ s.ball_pos.x ∧ s.ball_pos.x ≤ 232) ∧
  (0 ≤ s.ball_pos.y ∧ s.ball_pos.y ≤ 152)

instance (s : State) : Decidable (InBounds s) := by
  unfold InBounds; infer_instance

/-- The key register value when no key is held (a released key reads 1). -/
def noKeys : Nat := 0x03FF

/-- A state given by its nine numbers, for concrete evaluations. -/
def mkState (px py ex ey bx b_y vx vy : Int) (c : Nat) : State :=
  ⟨⟨px, py⟩, ⟨ex, ey⟩, ⟨bx, b_y⟩, ⟨vx, vy⟩, c⟩

/-- The key register value when only "up" is held. -/
def upKey : Nat := 0x03BF

/-- The key register value when only "down" is held. -/
def downKey : Nat := 0x037F

/-- The enemy movement applied `n` times in a row. -/
def moveEnemyTimes : Nat → State → State
  | 0, s => s
  | n + 1, s => moveEnemyTimes n (moveEnemy s)

/-- The test of line 80, `key_states & KEY_UP`: the "up" key is held. -/
def upPressed (reg : Nat) : Prop := key_states reg &&& KEY_UP ≠ 0

instance (reg : Nat) : Decidable (upPressed reg) := by
  unfold upPressed; infer_instance

/-- The test of line 84, `key_states & KEY_DOWN`: the "down" key is held. -/
def downPressed (reg : Nat) : Prop := key_states reg &&& KEY_DOWN ≠ 0

instance (reg : Nat) : Decidable (downPressed reg) := by
  unfold downPressed; infer_instance

/-- The key register value when both "up" and "down" are held. -/
def upDownKeys : Nat := 0x033F

/-- The collision resolution of lines 98-129 with the two paddle tests in the
other order, the enemy paddle first; the comparison term for the statement that
the priority order of the tests does not matter. -/
def collideEnemyFirst (s : State) : State :=
  if intersects (ballRect s) (enemyRect s) then hitEnemy s
  else if intersects (ballRect s) (playerRect s) then hitPlayer s
  else wallBounce (respawn s)

/-- The paddles stand in the columns given to them at line 53 and line 55. -/
def Columns (s : State) : Prop := s.player_pos.x = 5 ∧ s.enemy_pos.x = 227

/-- The horizontal-motion invariant: the horizontal speed is 2, a ball moving
right is at `x ≥ 15` and a ball moving left is at `x ≤ 217`. -/
def HorizInv (s : State) : Prop :=
  (s.ball_vel.x = 2 ∨ s.ball_vel.x = -2) ∧
  (s.ball_vel.x = 2 → 15 ≤ s.ball_pos.x) ∧
  (s.ball_vel.x = -2 → s.ball_pos.x ≤ 217)

instance (s : State) : Decidable (HorizInv s) := by
  unfold HorizInv; infer_instance

instance (s : State) : Decidable (Columns s) := by
  unfold Columns; infer_instance

/-! ## Auxiliary facts about the stages of a frame -/

theorem clamp_ge (v lo hi : Int) (h : lo ≤ hi) : lo ≤ clamp v lo hi := by
  unfold clamp; split_ifs <;> omega

theorem clamp_le (v lo hi : Int) (h : lo ≤ hi) : clamp v lo hi ≤ hi := by
  unfold clamp; split_ifs <;> omega

theorem clamp_of_mem (v lo hi : Int) (h1 : lo ≤ v) (h2 : v ≤ hi) : clamp v lo hi = v := by
  unfold clamp; split_ifs <;> omega

theorem paddle_max_y_eq : paddle_max_y = 128 := by decide

theorem ball_max_clamp_x : ball_max_clamp.x = 232 := by decide

theorem ball_max_clamp_y : ball_max_clamp.y = 152 := by decide

/-- The player movement touches nothing but `player_pos.y`. -/
theorem movePlayer_frame (reg : Nat) (s : State) :
    (movePlayer reg s).player_pos.x = s.player_pos.x ∧
    (movePlayer reg s).enemy_pos = s.enemy_pos ∧
    (movePlayer reg s).ball_pos = s.ball_pos ∧
    (movePlayer reg s).ball_vel = s.ball_vel ∧
    (movePlayer reg s).frames_until_ball_release = s.frames_until_ball_release := by
  unfold movePlayer; split_ifs <;> simp

/-- The player movement keeps the paddle inside `[0, 128]`. -/
theorem movePlayer_y_bounds (reg : Nat) (s : State)
    (h : 0 ≤ s.player_pos.y ∧ s.player_pos.y ≤ 128) :
    0 ≤ (movePlayer reg s).player_pos.y ∧ (movePlayer reg s).player_pos.y ≤ 128 := by
  have hlo := fun v => clamp_ge v 0 paddle_max_y (by decide)
  have hhi := fun v => clamp_le v 0 paddle_max_y (by decide)
  rw [paddle_max_y_eq] at hlo hhi
  unfold movePlayer; rw [paddle_max_y_eq]
  split_ifs <;> simp <;> first | exact h | exact ⟨hlo _, hhi _⟩

/-- The player movement displaces an in-range paddle by at most two pixels. -/
theorem movePlayer_y_near (reg : Nat) (s : State)
    (h : 0 ≤ s.player_pos.y ∧ s.player_pos.y ≤ 128) :
    s.player_pos.y - 2 ≤ (movePlayer reg s).player_pos.y ∧
    (movePlayer reg s).player_pos.y ≤ s.player_pos.y + 2 := by
  have up : ∀ y : Int, 0 ≤ y → y ≤ 128 →
      y - 2 ≤ clamp (y - 2) 0 128 ∧ clamp (y - 2) 0 128 ≤ y ∧
      0 ≤ clamp (y - 2) 0 128 ∧ clamp (y - 2) 0 128 ≤ 128 := by
    intro y h0 h1; unfold clamp; split_ifs <;> omega
  have down : ∀ y : Int, 0 ≤ y → y ≤ 128 →
      y ≤ clamp (y + 2) 0 128 ∧ clamp (y + 2) 0 128 ≤ y + 2 := by
    intro y h0 h1; unfold clamp; split_ifs <;> omega
  have u := up s.player_pos.y h.1 h.2
  have d := down s.player_pos.y h.1 h.2
  have d2 := down (clamp (s.player_pos.y - 2) 0 128) u.2.2.1 u.2.2.2
  unfold movePlayer
  simp only [player_velocity, paddle_max_y_eq]
  split_ifs <;> (try dsimp only) <;> omega

/-- The enemy movement touches nothing but `enemy_pos.y`. -/
theorem moveEnemy_frame (s : State) :
    (moveEnemy s).enemy_pos.x = s.enemy_pos.x ∧
    (moveEnemy s).player_pos = s.player_pos ∧
    (moveEnemy s).ball_pos = s.ball_pos ∧
    (moveEnemy s).ball_vel = s.ball_vel ∧
    (moveEnemy s).frames_until_ball_release = s.frames_until_ball_release := by
  unfold moveEnemy; split_ifs <;> simp

/-- The enemy movement keeps the paddle inside `[0, 128]`. -/
theorem moveEnemy_y_bounds (s : State)
    (h : 0 ≤ s.enemy_pos.y ∧ s.enemy_pos.y ≤ 128) :
    0 ≤ (moveEnemy s).enemy_pos.y ∧ (moveEnemy s).enemy_pos.y ≤ 128 := by
  have hlo := fun v => clamp_ge v 0 paddle_max_y (by decide)
  have hhi := fun v => clamp_le v 0 paddle_max_y (by decide)
  rw [paddle_max_y_eq] at hlo hhi
  unfold moveEnemy; rw [paddle_max_y_eq]
  split_ifs <;> first | exact h | exact ⟨hlo _, hhi _⟩

/-- Both paddle movements together: what the collision test sees. -/
theorem movePaddles_frame (reg : Nat) (s : State) :
    (movePaddles reg s).player_pos = (movePlayer reg s).player_pos ∧
    (movePaddles reg s).enemy_pos.x = s.enemy_pos.x ∧
    (movePaddles reg s).ball_pos = s.ball_pos ∧
    (movePaddles reg s).ball_vel = s.ball_vel ∧
    (movePaddles reg s).frames_until_ball_release = s.frames_until_ball_release := by
  obtain ⟨_, e2, e3, e4, e5⟩ := movePlayer_frame reg s
  obtain ⟨f1, f2, f3, f4, f5⟩ := moveEnemy_frame (movePlayer reg s)
  unfold movePaddles
  refine ⟨f2, ?_, ?_, ?_, ?_⟩
  · rw [f1, e2]
  · rw [f3, e3]
  · rw [f4, e4]
  · rw [f5, e5]

/-- The collision resolution never moves a paddle. -/
theorem collide_paddles (s : State) :
    (collide s).player_pos = s.player_pos ∧ (collide s).enemy_pos = s.enemy_pos := by
  unfold collide wallBounce respawn hitPlayer hitEnemy
  split_ifs <;> simp

/-- The ball movement changes `ball_pos` only. -/
theorem moveBall_frame (s : State) :
    (moveBall s).player_pos = s.player_pos ∧ (moveBall s).enemy_pos = s.enemy_pos ∧
    (moveBall s).ball_vel = s.ball_vel ∧
    (moveBall s).frames_until_ball_release = s.frames_until_ball_release := by
  simp [moveBall]

/-- The ball movement leaves the ball on the screen. -/
theorem moveBall_bounds (s : State) :
    (0 ≤ (moveBall s).ball_pos.x ∧ (moveBall s).ball_pos.x ≤ 232) ∧
    (0 ≤ (moveBall s).ball_pos.y ∧ (moveBall s).ball_pos.y ≤ 152) := by
  have hx1 := clamp_ge (s.ball_pos.x + s.ball_vel.x) 0 ball_max_clamp.x (by decide)
  have hx2 := clamp_le (s.ball_pos.x + s.ball_vel.x) 0 ball_max_clamp.x (by decide)
  have hy1 := clamp_ge (s.ball_pos.y + s.ball_vel.y) 0 ball_max_clamp.y (by decide)
  have hy2 := clamp_le (s.ball_pos.y + s.ball_vel.y) 0 ball_max_clamp.y (by decide)
  rw [ball_max_clamp_x] at hx1 hx2
  rw [ball_max_clamp_y] at hy1 hy2
  simp only [moveBall, ball_max_clamp_x, ball_max_clamp_y]
  exact ⟨⟨hx1, hx2⟩, ⟨hy1, hy2⟩⟩

/-- One frame keeps an in-bounds state in bounds. -/
theorem step_inBounds (reg : Nat) (s : State) (h : InBounds s) : InBounds (step reg s) := by
  obtain ⟨hp, he, hbx, hby⟩ := h
  unfold step
  split_ifs with hc
  · exact ⟨hp, he, hbx, hby⟩
  · obtain ⟨m1, m2, _, _⟩ := moveBall_frame (collide (movePaddles reg s))
    obtain ⟨c1, c2⟩ := collide_paddles (movePaddles reg s)
    obtain ⟨b1, b2⟩ := moveBall_bounds (collide (movePaddles reg s))
    obtain ⟨_, e2, _, _, _⟩ := movePlayer_frame reg s
    obtain ⟨p1, _, _, _, _⟩ := movePaddles_frame reg s
    refine ⟨?_, ?_, b1, b2⟩
    · rw [m1, c1, p1]; exact movePlayer_y_bounds reg s hp
    · rw [m2, c2]
      have := moveEnemy_y_bounds (movePlayer reg s) (by rw [e2]; exact he)
      exact this

/-- Running one more frame after a list of frames. -/
theorem run_append_one (regs : List Nat) (r : Nat) (s : State) :
    run (regs ++ [r]) s = step r (run regs s) := by
  simp [run, List.foldl_append]

/-- With the countdown at zero a frame is the four stages in sequence. -/
theorem step_of_zero (reg : Nat) (s : State) (hc : s.frames_until_ball_release = 0) :
    step reg s = moveBall (collide (movePaddles reg s)) := by
  unfold step; rw [if_neg (by omega)]

/-- The first branch of the collision resolution. -/
theorem collide_of_player (s : State) (h : intersects (ballRect s) (playerRect s) = true) :
    collide s = hitPlayer s := by
  unfold collide; rw [if_pos h]

/-- The last branch of the collision resolution. -/
theorem collide_of_neither (s : State) (hp : intersects (ballRect s) (playerRect s) = false)
    (he : intersects (ballRect s) (enemyRect s) = false) :
    collide s = wallBounce (respawn s) := by
  unfold collide; simp [hp, he]

/-- The intersection test against the player paddle, as inequalities. -/
theorem intersects_player_iff (s : State) :
    intersects (ballRect s) (playerRect s) = true ↔
      (s.ball_pos.x < s.player_pos.x + 8 ∧ s.player_pos.x < s.ball_pos.x + 8) ∧
      (s.ball_pos.y < s.player_pos.y + 32 ∧ s.player_pos.y < s.ball_pos.y + 8) := by
  simp only [intersects, ballRect, playerRect, paddle_width, paddle_height, ball_width,
    ball_height, Bool.and_eq_true, decide_eq_true_eq]
  tauto

/-- After a miss the served ball is not at a vertical bound, so line 128 does
not fire on it: the velocity is the start velocity and the countdown is 32. -/
theorem wallBounce_respawn_of_miss (s : State)
    (hy : 0 ≤ s.player_pos.y ∧ s.player_pos.y ≤ 128)
    (hx : s.ball_pos.x ≤ 0 ∨ s.ball_pos.x ≥ 232) :
    wallBounce (respawn s) =
      { s with
        ball_vel := ⟨2, 1⟩
        ball_pos := ⟨s.player_pos.x + 16, s.player_pos.y + 12⟩
        frames_until_ball_release := 32 } := by
  have hx2 : s.ball_pos.x ≤ 0 ∨ s.ball_pos.x ≥ ball_max_clamp.x := by
    rw [ball_max_clamp_x]; exact hx
  have e : respawn s =
      { s with
        ball_vel := ⟨2, 1⟩
        ball_pos := ⟨s.player_pos.x + 16, s.player_pos.y + 12⟩
        frames_until_ball_release := 32 } := by
    unfold respawn; rw [if_pos hx2]
    simp only [start_ball_vel, paddle_width, paddle_height, ball_height]
    norm_num
    omega
  rw [e]
  unfold wallBounce
  rw [if_neg]
  simp only [ball_max_clamp_y]
  omega

/-! ## The claims -/

/-- C1 (clamp invariant). In every state reached from the initial state by any
sequence of frames under any key inputs, `0 ≤ player.y ≤ 128`,
`0 ≤ enemy.y ≤ 128`, `0 ≤ ball.x ≤ 232` and `0 ≤ ball.y ≤ 152`. -/
theorem C1_clamp_invariant (regs : List Nat) : InBounds (run regs initial) := by
  induction regs using List.reverseRecOn with
  | nil => decide
  | append_singleton regs r ih => rw [run_append_one]; exact step_inBounds r _ ih

/-- C2 (serve gate). When the serve countdown is positive at entry, one frame
under any key input leaves the ball position, the ball velocity and both
paddle positions unchanged and decrements the countdown by exactly one. -/
theorem C2_serve_gate (reg : Nat) (s : State) (h : s.frames_until_ball_release > 0) :
    (step reg s).ball_pos = s.ball_pos ∧ (step reg s).ball_vel = s.ball_vel ∧
    (step reg s).player_pos = s.player_pos ∧ (step reg s).enemy_pos = s.enemy_pos ∧
    (step reg s).frames_until_ball_release + 1 = s.frames_until_ball_release := by
  unfold step
  rw [if_pos h]
  refine ⟨rfl, rfl, rfl, rfl, ?_⟩
  show s.frames_until_ball_release - 1 + 1 = s.frames_until_ball_release
  omega

theorem C2_serve_gate_witness :
    initial.frames_until_ball_release > 0 ∧
    (step 0x03BF initial).ball_pos = initial.ball_pos ∧
    (step 0x03BF initial).ball_vel = initial.ball_vel ∧
    (step 0x03BF initial).player_pos = initial.player_pos ∧
    (step 0x03BF initial).enemy_pos = initial.enemy_pos ∧
    (step 0x03BF initial).frames_until_ball_release + 1 = initial.frames_until_ball_release :=
  ⟨by decide, C2_serve_gate 0x03BF initial (by decide)⟩

/-- C3, as stated, fails: with the player paddle at (5,96), the ball at (6,108)
(it overlaps the paddle and is vertically centred on it), velocity (2,1),
countdown 0 and no key held, the ball ends the frame at x = 11, not at
`player.x + 8 = 13`; the velocity is (-2,1) as claimed. -/
theorem C3_centre_hit_counterexample :
    (mkState 5 96 227 96 6 108 2 1 0).frames_until_ball_release = 0 ∧
    (mkState 5 96 227 96 6 108 2 1 0).ball_vel = ⟨2, 1⟩ ∧
    intersects (ballRect (mkState 5 96 227 96 6 108 2 1 0))
      (playerRect (mkState 5 96 227 96 6 108 2 1 0)) = true ∧
    (mkState 5 96 227 96 6 108 2 1 0).ball_pos.y + 4 =
      (mkState 5 96 227 96 6 108 2 1 0).player_pos.y + 16 ∧
    (step noKeys (mkState 5 96 227 96 6 108 2 1 0)).ball_pos.x = 11 ∧
    (step noKeys (mkState 5 96 227 96 6 108 2 1 0)).ball_pos.x ≠
      (mkState 5 96 227 96 6 108 2 1 0).player_pos.x + paddle_width := by
  decide

/-- C3, amended. For every state with countdown 0, the player paddle within
its range (`0 ≤ player.y ≤ 128`) and ball velocity (2,1), in which the ball
rectangle intersects the player-paddle rectangle with the ball vertically
centred on the paddle (`ball.y + 4 = player.y + 16`), and for every key input:
after one frame the ball velocity is (-2, 1), and `ball.x` is the paddle's right
edge advanced by the new horizontal velocity and clamped,
`clamp (player.x + 8 - 2) 0 232`, because the ball is moved after the hit. -/
theorem C3_centre_hit (reg : Nat) (s : State)
    (hc : s.frames_until_ball_release = 0)
    (hy : 0 ≤ s.player_pos.y ∧ s.player_pos.y ≤ 128)
    (hv : s.ball_vel = ⟨2, 1⟩)
    (hi : intersects (ballRect s) (playerRect s) = true)
    (hm : s.ball_pos.y + 4 = s.player_pos.y + 16) :
    (step reg s).ball_pos.x = clamp (s.player_pos.x + paddle_width - 2) 0 232 ∧
    (step reg s).ball_vel.x = -2 ∧ (step reg s).ball_vel.y = 1 := by
  obtain ⟨p1, _, p3, p4, _⟩ := movePaddles_frame reg s
  obtain ⟨q1, _, _, _, _⟩ := movePlayer_frame reg s
  have near := movePlayer_y_near reg s hy
  rw [← p1] at near q1
  have hi2 : intersects (ballRect (movePaddles reg s)) (playerRect (movePaddles reg s)) = true := by
    rw [intersects_player_iff] at hi ⊢
    rw [p3, q1]
    omega
  rw [step_of_zero reg s hc, collide_of_player _ hi2]
  simp only [moveBall, hitPlayer, p3, p4, q1, hv, ball_max_clamp_x, paddle_width,
    paddle_height]
  refine ⟨by rw [Int.sub_eq_add_neg], trivial, ?_⟩
  rw [if_neg (by omega), if_neg (by omega)]

theorem C3_centre_hit_witness :
    (step upKey (mkState 5 96 227 96 6 108 2 1 0)).ball_pos.x = clamp (5 + paddle_width - 2) 0 232 ∧
    (step upKey (mkState 5 96 227 96 6 108 2 1 0)).ball_vel.x = -2 ∧
    (step upKey (mkState 5 96 227 96 6 108 2 1 0)).ball_vel.y = 1 :=
  C3_centre_hit upKey (mkState 5 96 227 96 6 108 2 1 0) (by decide) (by decide) (by decide)
    (by decide) (by decide)

/-- C4, as stated, fails on the boundary of the bottom quarter: with the player
paddle at (5,96), the ball at (6,120) (so `ball.y - player.y = 24`, which is
`3/4` of the paddle height), velocity (-2,1), countdown 0 and no key held, the
ball overlaps the paddle but its vertical velocity stays 1 instead of
becoming 2: line 103 tests `> 24`. -/
theorem C4_bottom_quarter_counterexample :
    (mkState 5 96 227 96 6 120 (-2) 1 0).frames_until_ball_release = 0 ∧
    intersects (ballRect (mkState 5 96 227 96 6 120 (-2) 1 0))
      (playerRect (mkState 5 96 227 96 6 120 (-2) 1 0)) = true ∧
    (mkState 5 96 227 96 6 120 (-2) 1 0).ball_pos.y -
      (mkState 5 96 227 96 6 120 (-2) 1 0).player_pos.y ≥ 24 ∧
    (mkState 5 96 227 96 6 120 (-2) 1 0).ball_pos.y -
      (mkState 5 96 227 96 6 120 (-2) 1 0).player_pos.y < 32 ∧
    (step noKeys (mkState 5 96 227 96 6 120 (-2) 1 0)).ball_vel.y = 1 ∧
    (step noKeys (mkState 5 96 227 96 6 120 (-2) 1 0)).ball_vel.y ≠
      (mkState 5 96 227 96 6 120 (-2) 1 0).ball_vel.y + 1 := by
  decide

/-- C4, amended. For every state with countdown 0 and every key input: if the
ball rectangle intersects the player-paddle rectangle as the paddle stands
after this frame's player movement, and the ball's vertical offset from that
paddle position is strictly more than 24 (`ball.y - player.y > 24`), then the
ball's vertical velocity after the frame is its previous value plus 1. -/
theorem C4_bottom_quarter (reg : Nat) (s : State)
    (hc : s.frames_until_ball_release = 0)
    (hi : intersects (ballRect (movePaddles reg s)) (playerRect (movePaddles reg s)) = true)
    (hd : s.ball_pos.y - (movePlayer reg s).player_pos.y > 24) :
    (step reg s).ball_vel.y = s.ball_vel.y + 1 := by
  obtain ⟨p1, _, p3, p4, _⟩ := movePaddles_frame reg s
  rw [step_of_zero reg s hc, collide_of_player _ hi]
  simp only [moveBall, hitPlayer, p1, p3, p4, paddle_height]
  rw [if_pos (by omega)]

theorem C4_bottom_quarter_witness :
    (mkState 5 96 227 96 6 123 (-2) 1 0).ball_pos.y -
      (movePlayer upKey (mkState 5 96 227 96 6 123 (-2) 1 0)).player_pos.y > 24 ∧
    (step upKey (mkState 5 96 227 96 6 123 (-2) 1 0)).ball_vel.y = 1 + 1 :=
  ⟨by decide, C4_bottom_quarter upKey (mkState 5 96 227 96 6 123 (-2) 1 0) (by decide)
    (by decide) (by decide)⟩

/-- What a frame does when the ball is at a horizontal bound and the collision
tests of the frame find neither paddle. -/
theorem step_of_miss (reg : Nat) (s : State)
    (hc : s.frames_until_ball_release = 0)
    (hy : 0 ≤ s.player_pos.y ∧ s.player_pos.y ≤ 128)
    (hx : s.ball_pos.x ≤ 0 ∨ s.ball_pos.x ≥ 232)
    (hp : intersects (ballRect (movePaddles reg s)) (playerRect (movePaddles reg s)) = false)
    (he : intersects (ballRect (movePaddles reg s)) (enemyRect (movePaddles reg s)) = false) :
    (step reg s).ball_vel = ⟨2, 1⟩ ∧ (step reg s).frames_until_ball_release = 32 ∧
    (step reg s).ball_pos =
      ⟨clamp (s.player_pos.x + 18) 0 232, (step reg s).player_pos.y + 13⟩ := by
  obtain ⟨p1, _, p3, _, _⟩ := movePaddles_frame reg s
  obtain ⟨q1, _, _, _, _⟩ := movePlayer_frame reg s
  have b := movePlayer_y_bounds reg s hy
  rw [← p1] at b q1
  have hx2 : (movePaddles reg s).ball_pos.x ≤ 0 ∨ (movePaddles reg s).ball_pos.x ≥ 232 := by
    rw [p3]; exact hx
  rw [step_of_zero reg s hc, collide_of_neither _ hp he,
    wallBounce_respawn_of_miss _ b hx2]
  simp only [moveBall, ball_max_clamp_x, ball_max_clamp_y, q1]
  refine ⟨trivial, trivial, ?_⟩
  have e1 : s.player_pos.x + 16 + 2 = s.player_pos.x + 18 := by omega
  have e2 : (movePaddles reg s).player_pos.y + 12 + 1 = (movePaddles reg s).player_pos.y + 13 := by
    omega
  rw [e1, e2, clamp_of_mem _ 0 152 (by omega) (by omega)]

/-- C5, as stated, fails, because the enemy paddle moves before the collision
test: with the enemy paddle at (227,96), the ball at (232,129) and velocity
(2,1), countdown 0 and no key held, the state is in bounds, the ball is at the
right bound and intersects neither paddle; but the enemy paddle steps down to
y = 98 and the ball then overlaps it, so the frame is an enemy-paddle hit: the
velocity becomes (-2,2) and the countdown stays 0. -/
theorem C5_miss_reset_counterexample :
    InBounds (mkState 5 96 227 96 232 129 2 1 0) ∧
    (mkState 5 96 227 96 232 129 2 1 0).frames_until_ball_release = 0 ∧
    (mkState 5 96 227 96 232 129 2 1 0).ball_pos.x ≥ 232 ∧
    intersects (ballRect (mkState 5 96 227 96 232 129 2 1 0))
      (playerRect (mkState 5 96 227 96 232 129 2 1 0)) = false ∧
    intersects (ballRect (mkState 5 96 227 96 232 129 2 1 0))
      (enemyRect (mkState 5 96 227 96 232 129 2 1 0)) = false ∧
    (step noKeys (mkState 5 96 227 96 232 129 2 1 0)).ball_vel = ⟨-2, 2⟩ ∧
    (step noKeys (mkState 5 96 227 96 232 129 2 1 0)).frames_until_ball_release = 0 := by
  decide

/-- C5, amended. For every in-bounds state with countdown 0 in which
`ball.x ≥ 232` and every key input such that the ball intersects neither paddle
as the paddles stand after this frame's paddle movement (the moment of the
collision test): after the frame the ball velocity is exactly (2,1) and the
serve countdown is 32. -/
theorem C5_miss_reset (reg : Nat) (s : State) (hb : InBounds s)
    (hc : s.frames_until_ball_release = 0) (hx : s.ball_pos.x ≥ 232)
    (hp : intersects (ballRect (movePaddles reg s)) (playerRect (movePaddles reg s)) = false)
    (he : intersects (ballRect (movePaddles reg s)) (enemyRect (movePaddles reg s)) = false) :
    (step reg s).ball_vel = ⟨2, 1⟩ ∧ (step reg s).frames_until_ball_release = 32 := by
  have h := step_of_miss reg s hc hb.1 (Or.inr hx) hp he
  exact ⟨h.1, h.2.1⟩

theorem C5_miss_reset_witness :
    InBounds (mkState 5 96 227 96 232 60 3 (-2) 0) ∧
    (step downKey (mkState 5 96 227 96 232 60 3 (-2) 0)).ball_vel = ⟨2, 1⟩ ∧
    (step downKey (mkState 5 96 227 96 232 60 3 (-2) 0)).frames_until_ball_release = 32 :=
  ⟨by decide, C5_miss_reset downKey (mkState 5 96 227 96 232 60 3 (-2) 0) (by decide)
    (by decide) (by decide) (by decide) (by decide)⟩

/-- C6, as stated, fails: there is no single respawn point. The in-bounds
states with the ball at (232,60), countdown 0 and the player paddle at y = 96
and at y = 40 are both misses (the ball intersects neither paddle, before and
after the paddle movement); with no key held the first leaves the ball at
(23,109) and the second at (23,53). -/
theorem C6_respawn_point_counterexample :
    ¬ ∃ p : V2, ∀ (reg : Nat) (s : State), InBounds s → s.frames_until_ball_release = 0 →
      s.ball_pos.x ≥ 232 →
      intersects (ballRect s) (playerRect s) = false →
      intersects (ballRect s) (enemyRect s) = false →
      intersects (ballRect (movePaddles reg s)) (playerRect (movePaddles reg s)) = false →
      intersects (ballRect (movePaddles reg s)) (enemyRect (movePaddles reg s)) = false →
      (step reg s).ball_pos = p := by
  rintro ⟨p, h⟩
  have h1 := h noKeys (mkState 5 96 227 96 232 60 2 1 0) (by decide) (by decide) (by decide)
    (by decide) (by decide) (by decide) (by decide)
  have h2 := h noKeys (mkState 5 40 227 96 232 60 2 1 0) (by decide) (by decide) (by decide)
    (by decide) (by decide) (by decide) (by decide)
  rw [← h1] at h2
  revert h2
  decide

/-- C6, amended. For every in-bounds state with countdown 0 in which
`ball.x ≥ 232` and every key input such that the ball intersects neither paddle
as the paddles stand after this frame's paddle movement: the ball position
after the frame is `(clamp (player.x + 18) 0 232, player.y' + 13)`, where
`player.y'` is the player paddle's position after the frame. The point is fixed
relative to the player paddle (two paddle widths to its right and vertically
centred on it, advanced by one step of the start velocity), not on the
screen. -/
theorem C6_respawn_point (reg : Nat) (s : State) (hb : InBounds s)
    (hc : s.frames_until_ball_release = 0) (hx : s.ball_pos.x ≥ 232)
    (hp : intersects (ballRect (movePaddles reg s)) (playerRect (movePaddles reg s)) = false)
    (he : intersects (ballRect (movePaddles reg s)) (enemyRect (movePaddles reg s)) = false) :
    (step reg s).ball_pos =
      ⟨clamp (s.player_pos.x + 18) 0 232, (step reg s).player_pos.y + 13⟩ :=
  (step_of_miss reg s hc hb.1 (Or.inr hx) hp he).2.2

theorem C6_respawn_point_witness :
    (step upKey (mkState 5 96 227 96 232 60 2 1 0)).player_pos.y = 94 ∧
    (step upKey (mkState 5 96 227 96 232 60 2 1 0)).ball_pos =
      ⟨clamp (5 + 18) 0 232, (step upKey (mkState 5 96 227 96 232 60 2 1 0)).player_pos.y + 13⟩ :=
  ⟨by decide, C6_respawn_point upKey (mkState 5 96 227 96 232 60 2 1 0) (by decide)
    (by decide) (by decide) (by decide) (by decide)⟩

/-- The intersection test against the enemy paddle, as inequalities. -/
theorem intersects_enemy_iff (s : State) :
    intersects (ballRect s) (enemyRect s) = true ↔
      (s.ball_pos.x < s.enemy_pos.x + 8 ∧ s.enemy_pos.x < s.ball_pos.x + 8) ∧
      (s.ball_pos.y < s.enemy_pos.y + 32 ∧ s.enemy_pos.y < s.ball_pos.y + 8) := by
  simp only [intersects, ballRect, enemyRect, paddle_width, paddle_height, ball_width,
    ball_height, Bool.and_eq_true, decide_eq_true_eq]
  tauto

/-- The first frame after a serve: a ball at x = 23 with the start velocity,
clear of the walls, with the paddles in the columns x = 5 and x = 227, moves
by the start velocity. -/
theorem step_after_serve (r : Nat) (u : State)
    (hc : u.frames_until_ball_release = 0)
    (hpx : u.player_pos.x = 5) (hex : u.enemy_pos.x = 227)
    (hbx : u.ball_pos.x = 23) (hby : 13 ≤ u.ball_pos.y ∧ u.ball_pos.y ≤ 141)
    (hv : u.ball_vel = ⟨2, 1⟩) :
    (step r u).ball_pos = ⟨25, u.ball_pos.y + 1⟩ := by
  obtain ⟨p1, p2, p3, p4, _⟩ := movePaddles_frame r u
  obtain ⟨q1, _, _, _, _⟩ := movePlayer_frame r u
  rw [← p1] at q1
  have hp : intersects (ballRect (movePaddles r u)) (playerRect (movePaddles r u)) = false := by
    rw [Bool.eq_false_iff, Ne, intersects_player_iff, p3, q1]; omega
  have he : intersects (ballRect (movePaddles r u)) (enemyRect (movePaddles r u)) = false := by
    rw [Bool.eq_false_iff, Ne, intersects_enemy_iff, p3, p2]; omega
  have hr : respawn (movePaddles r u) = movePaddles r u := by
    unfold respawn; rw [if_neg]; rw [p3, ball_max_clamp_x]; omega
  have hw : wallBounce (movePaddles r u) = movePaddles r u := by
    unfold wallBounce; rw [if_neg]; rw [p3, ball_max_clamp_y]; omega
  rw [step_of_zero r u hc, collide_of_neither _ hp he, hr, hw]
  simp only [moveBall, p3, p4, hv, hbx, ball_max_clamp_x, ball_max_clamp_y]
  rw [clamp_of_mem _ 0 152 (by omega) (by omega), clamp_of_mem _ 0 232 (by omega) (by omega)]
  norm_num

/-- While the countdown lasts, frames only count down. -/
theorem run_frozen (regs : List Nat) (s : State)
    (h : regs.length ≤ s.frames_until_ball_release) :
    run regs s =
      { s with frames_until_ball_release := s.frames_until_ball_release - regs.length } := by
  induction regs generalizing s with
  | nil => rfl
  | cons r rest ih =>
    have hl : rest.length + 1 ≤ s.frames_until_ball_release := by simpa using h
    have hs : step r s =
        { s with frames_until_ball_release := s.frames_until_ball_release - 1 } := by
      unfold step; rw [if_pos (by omega)]
    show run rest (step r s) = _
    rw [hs, ih _ (by show rest.length ≤ s.frames_until_ball_release - 1; omega)]
    show State.mk _ _ _ _ _ = State.mk _ _ _ _ _
    congr 1
    show s.frames_until_ball_release - 1 - rest.length =
      s.frames_until_ball_release - (rest.length + 1)
    omega

/-- C7 (post-miss freeze). Take an in-bounds state with countdown 0 in which a
horizontal miss occurs under the key input `reg`: the ball is at a horizontal
bound (`ball.x ≤ 0` or `ball.x ≥ 232`) and the collision tests of the frame
find neither paddle. Let `s'` be the state after that frame. Then for every
sequence of at most 32 further key inputs, the ball position and the ball
velocity after those frames are those of `s'`, and the countdown has gone down
by one per frame from 32: the ball stands still through the 32 frames of the
countdown, whatever the input. It stands still for exactly those frames: with
the paddles in their columns x = 5 and x = 227, the frame after the 32nd moves
the ball by the start velocity. -/
theorem C7_post_miss_freeze (reg : Nat) (s : State) (regs : List Nat)
    (hb : InBounds s)
    (hc : s.frames_until_ball_release = 0)
    (hx : s.ball_pos.x ≤ 0 ∨ s.ball_pos.x ≥ 232)
    (hp : intersects (ballRect (movePaddles reg s)) (playerRect (movePaddles reg s)) = false)
    (he : intersects (ballRect (movePaddles reg s)) (enemyRect (movePaddles reg s)) = false)
    (hl : regs.length ≤ 32) :
    (run regs (step reg s)).ball_pos = (step reg s).ball_pos ∧
    (run regs (step reg s)).ball_vel = (step reg s).ball_vel ∧
    (run regs (step reg s)).frames_until_ball_release = 32 - regs.length ∧
    (regs.length = 32 → s.player_pos.x = 5 → s.enemy_pos.x = 227 → ∀ r : Nat,
      (step r (run regs (step reg s))).ball_pos =
        ⟨(step reg s).ball_pos.x + 2, (step reg s).ball_pos.y + 1⟩) := by
  obtain ⟨hv, h32, hpos⟩ := step_of_miss reg s hc hb.1 hx hp he
  have hfr : run regs (step reg s) =
      { step reg s with frames_until_ball_release := 32 - regs.length } := by
    rw [run_frozen regs (step reg s) (by rw [h32]; exact hl), h32]
  refine ⟨by rw [hfr], by rw [hfr], by rw [hfr], ?_⟩
  intro hlen hpx hex r
  obtain ⟨p1, p2, _, _, _⟩ := movePaddles_frame reg s
  obtain ⟨q1, _, _, _, _⟩ := movePlayer_frame reg s
  obtain ⟨c1, c2⟩ := collide_paddles (movePaddles reg s)
  obtain ⟨m1, m2, _, _⟩ := moveBall_frame (collide (movePaddles reg s))
  have b := movePlayer_y_bounds reg s hb.1
  have sp : (step reg s).player_pos = (movePlayer reg s).player_pos := by
    rw [step_of_zero reg s hc, m1, c1, p1]
  have se : (step reg s).enemy_pos.x = s.enemy_pos.x := by
    rw [step_of_zero reg s hc, m2, c2, p2]
  have hbx : (step reg s).ball_pos.x = 23 := by
    rw [hpos, hpx]
    show clamp (5 + 18) 0 232 = 23
    decide
  have hby : (step reg s).ball_pos.y = (movePlayer reg s).player_pos.y + 13 := by
    rw [hpos, sp]
  have key := step_after_serve r (run regs (step reg s))
    (by rw [hfr]; show 32 - regs.length = 0; omega)
    (by rw [hfr]; show (step reg s).player_pos.x = 5; rw [sp, q1, hpx])
    (by rw [hfr]; show (step reg s).enemy_pos.x = 227; rw [se, hex])
    (by rw [hfr]; exact hbx)
    (by rw [hfr]; show 13 ≤ (step reg s).ball_pos.y ∧ (step reg s).ball_pos.y ≤ 141
        rw [hby]; omega)
    (by rw [hfr]; exact hv)
  rw [key, hfr, hbx]
  rfl

theorem C7_post_miss_freeze_witness :
    (step noKeys (mkState 5 96 227 96 0 60 (-2) 1 0)).ball_pos = ⟨23, 109⟩ ∧
    (run (List.replicate 32 upKey) (step noKeys (mkState 5 96 227 96 0 60 (-2) 1 0))).ball_pos =
      (step noKeys (mkState 5 96 227 96 0 60 (-2) 1 0)).ball_pos ∧
    (run (List.replicate 32 upKey) (step noKeys (mkState 5 96 227 96 0 60 (-2) 1 0))).ball_vel =
      (step noKeys (mkState 5 96 227 96 0 60 (-2) 1 0)).ball_vel ∧
    (run (List.replicate 32 upKey)
      (step noKeys (mkState 5 96 227 96 0 60 (-2) 1 0))).frames_until_ball_release =
      32 - (List.replicate 32 upKey).length ∧
    ((List.replicate 32 upKey).length = 32 → (mkState 5 96 227 96 0 60 (-2) 1 0).player_pos.x = 5 →
      (mkState 5 96 227 96 0 60 (-2) 1 0).enemy_pos.x = 227 → ∀ r : Nat,
      (step r (run (List.replicate 32 upKey)
        (step noKeys (mkState 5 96 227 96 0 60 (-2) 1 0)))).ball_pos =
        ⟨(step noKeys (mkState 5 96 227 96 0 60 (-2) 1 0)).ball_pos.x + 2,
          (step noKeys (mkState 5 96 227 96 0 60 (-2) 1 0)).ball_pos.y + 1⟩) :=
  ⟨by decide, C7_post_miss_freeze noKeys (mkState 5 96 227 96 0 60 (-2) 1 0)
    (List.replicate 32 upKey) (by decide) (by decide) (by decide) (by decide) (by decide)
    (by decide)⟩

/-- C8, as stated, fails: with the ball at (100,0) moving up with velocity
(2,-1), countdown 0, no key held and the paddles at (5,96) and (227,96), the
state is in bounds, there is no horizontal miss and the ball intersects neither
paddle (before and after the paddle movement); the frame negates the vertical
velocity, to (2,1), and then moves the ball, which ends at y = 1, not at 0. -/
theorem C8_top_wall_counterexample :
    InBounds (mkState 5 96 227 96 100 0 2 (-1) 0) ∧
    (mkState 5 96 227 96 100 0 2 (-1) 0).frames_until_ball_release = 0 ∧
    (mkState 5 96 227 96 100 0 2 (-1) 0).ball_pos.y = 0 ∧
    (0 < (mkState 5 96 227 96 100 0 2 (-1) 0).ball_pos.x ∧
      (mkState 5 96 227 96 100 0 2 (-1) 0).ball_pos.x < 232) ∧
    intersects (ballRect (mkState 5 96 227 96 100 0 2 (-1) 0))
      (playerRect (mkState 5 96 227 96 100 0 2 (-1) 0)) = false ∧
    intersects (ballRect (mkState 5 96 227 96 100 0 2 (-1) 0))
      (enemyRect (mkState 5 96 227 96 100 0 2 (-1) 0)) = false ∧
    intersects (ballRect (movePaddles noKeys (mkState 5 96 227 96 100 0 2 (-1) 0)))
      (playerRect (movePaddles noKeys (mkState 5 96 227 96 100 0 2 (-1) 0))) = false ∧
    intersects (ballRect (movePaddles noKeys (mkState 5 96 227 96 100 0 2 (-1) 0)))
      (enemyRect (movePaddles noKeys (mkState 5 96 227 96 100 0 2 (-1) 0))) = false ∧
    (step noKeys (mkState 5 96 227 96 100 0 2 (-1) 0)).ball_vel = ⟨2, 1⟩ ∧
    (step noKeys (mkState 5 96 227 96 100 0 2 (-1) 0)).ball_pos.y = 1 ∧
    (step noKeys (mkState 5 96 227 96 100 0 2 (-1) 0)).ball_pos.y ≠ 0 := by
  decide

/-- C8, amended. For every state with countdown 0 in which `ball.y = 0` and
there is no horizontal miss (`0 < ball.x < 232`), and every key input such that
the ball intersects neither paddle as the paddles stand after this frame's
paddle movement: after the frame the vertical velocity is the negation of its
previous value, the horizontal velocity is unchanged, and `ball.y` is
`clamp (-vy) 0 152` for the previous vertical velocity `vy`; so `ball.y` is
still 0 when the ball was not moving up (`vy ≥ 0`), and the ball has left the
wall (`ball.y > 0`) when it was moving up (`vy < 0`). -/
theorem C8_top_wall (reg : Nat) (s : State)
    (hc : s.frames_until_ball_release = 0)
    (hy : s.ball_pos.y = 0) (hx : 0 < s.ball_pos.x ∧ s.ball_pos.x < 232)
    (hp : intersects (ballRect (movePaddles reg s)) (playerRect (movePaddles reg s)) = false)
    (he : intersects (ballRect (movePaddles reg s)) (enemyRect (movePaddles reg s)) = false) :
    (step reg s).ball_vel.y = -s.ball_vel.y ∧
    (step reg s).ball_vel.x = s.ball_vel.x ∧
    (step reg s).ball_pos.y = clamp (-s.ball_vel.y) 0 152 ∧
    (0 ≤ s.ball_vel.y → (step reg s).ball_pos.y = 0) ∧
    (s.ball_vel.y < 0 → 0 < (step reg s).ball_pos.y) := by
  obtain ⟨_, _, p3, p4, _⟩ := movePaddles_frame reg s
  have hr : respawn (movePaddles reg s) = movePaddles reg s := by
    unfold respawn; rw [if_neg]; rw [p3, ball_max_clamp_x]; omega
  have hw : wallBounce (movePaddles reg s) =
      { movePaddles reg s with ball_vel := ⟨s.ball_vel.x, -s.ball_vel.y⟩ } := by
    unfold wallBounce; rw [if_pos, p4]; rw [p3]; left; omega
  have hpos : (step reg s).ball_pos.y = clamp (-s.ball_vel.y) 0 152 := by
    rw [step_of_zero reg s hc, collide_of_neither _ hp he, hr, hw]
    simp only [moveBall, ball_max_clamp_y, p3, hy, zero_add]
  refine ⟨?_, ?_, hpos, ?_, ?_⟩
  · rw [step_of_zero reg s hc, collide_of_neither _ hp he, hr, hw]; rfl
  · rw [step_of_zero reg s hc, collide_of_neither _ hp he, hr, hw]; rfl
  · intro h; rw [hpos]; unfold clamp; split_ifs <;> omega
  · intro h; rw [hpos]; unfold clamp; split_ifs <;> omega

theorem C8_top_wall_witness :
    (step downKey (mkState 5 96 227 96 100 0 2 (-3) 0)).ball_vel.y = - (-3) ∧
    (step downKey (mkState 5 96 227 96 100 0 2 (-3) 0)).ball_vel.x = 2 ∧
    (step downKey (mkState 5 96 227 96 100 0 2 (-3) 0)).ball_pos.y = clamp (- (-3)) 0 152 ∧
    ((0 : Int) ≤ -3 → (step downKey (mkState 5 96 227 96 100 0 2 (-3) 0)).ball_pos.y = 0) ∧
    ((-3 : Int) < 0 → 0 < (step downKey (mkState 5 96 227 96 100 0 2 (-3) 0)).ball_pos.y) :=
  C8_top_wall downKey (mkState 5 96 227 96 100 0 2 (-3) 0) (by decide) (by decide) (by decide)
    (by decide) (by decide)

/-- C9, as stated, fails: with the enemy paddle at y = 96 and the ball at
y = 98, the ball's vertical midpoint 102 lies strictly between
`enemy.y + 4 = 100` and `enemy.y + 32 - 4 = 124`, the state is in bounds and
its countdown is 0, yet the enemy movement takes the paddle up to y = 94:
line 90 compares the ball's top edge `ball.y`, not its midpoint, with
`enemy.y + 4`. -/
theorem C9_dead_zone_counterexample :
    InBounds (mkState 5 96 227 96 100 98 2 1 0) ∧
    (mkState 5 96 227 96 100 98 2 1 0).frames_until_ball_release = 0 ∧
    (mkState 5 96 227 96 100 98 2 1 0).enemy_pos.y + 4 <
      (mkState 5 96 227 96 100 98 2 1 0).ball_pos.y + ball_height / 2 ∧
    (mkState 5 96 227 96 100 98 2 1 0).ball_pos.y + ball_height / 2 <
      (mkState 5 96 227 96 100 98 2 1 0).enemy_pos.y + paddle_height - 4 ∧
    (moveEnemy (mkState 5 96 227 96 100 98 2 1 0)).enemy_pos = ⟨227, 94⟩ ∧
    (moveEnemy (mkState 5 96 227 96 100 98 2 1 0)).enemy_pos ≠
      (mkState 5 96 227 96 100 98 2 1 0).enemy_pos ∧
    (step noKeys (mkState 5 96 227 96 100 98 2 1 0)).enemy_pos ≠
      (mkState 5 96 227 96 100 98 2 1 0).enemy_pos := by
  decide

/-- C9, amended. For every state in which the ball's top edge `ball.y` lies
strictly between `enemy.y + 4` and `enemy.y + 28` (equivalently, the ball's
vertical midpoint `ball.y + 4` lies strictly between `enemy.y + 8` and
`enemy.y + 32`), the enemy movement of the frame leaves the state, and so the
enemy position, unchanged, and so does applying it any number of times. -/
theorem C9_dead_zone (s : State) (n : Nat)
    (h1 : s.enemy_pos.y + 4 < s.ball_pos.y) (h2 : s.ball_pos.y < s.enemy_pos.y + 28) :
    moveEnemy s = s ∧ moveEnemyTimes n s = s := by
  have e : moveEnemy s = s := by
    unfold moveEnemy
    simp only [ball_height, paddle_height]
    rw [if_neg (by omega), if_neg (by omega)]
  refine ⟨e, ?_⟩
  induction n with
  | zero => rfl
  | succ k ih => show moveEnemyTimes k (moveEnemy s) = s; rw [e]; exact ih

theorem C9_dead_zone_witness :
    moveEnemy (mkState 5 96 227 96 100 101 2 1 0) = mkState 5 96 227 96 100 101 2 1 0 ∧
    moveEnemyTimes 7 (mkState 5 96 227 96 100 101 2 1 0) = mkState 5 96 227 96 100 101 2 1 0 :=
  C9_dead_zone (mkState 5 96 227 96 100 101 2 1 0) 7 (by decide) (by decide)

/-- C10 (velocity only changes in the listed ways). For every in-bounds state
and every key input, the ball velocity `(vx', vy')` after one frame is one of:
unchanged `(vx, vy)`; a wall bounce `(vx, -vy)`; a paddle hit `(-vx, vy + d)`
with `d` one of -1, 0, +1; or the fixed start velocity `(2, 1)`. -/
theorem C10_velocity_changes (reg : Nat) (s : State) (hb : InBounds s) :
    (step reg s).ball_vel = s.ball_vel ∨
    (step reg s).ball_vel = ⟨s.ball_vel.x, -s.ball_vel.y⟩ ∨
    (step reg s).ball_vel = ⟨-s.ball_vel.x, s.ball_vel.y - 1⟩ ∨
    (step reg s).ball_vel = ⟨-s.ball_vel.x, s.ball_vel.y⟩ ∨
    (step reg s).ball_vel = ⟨-s.ball_vel.x, s.ball_vel.y + 1⟩ ∨
    (step reg s).ball_vel = ⟨2, 1⟩ := by
  by_cases hc : s.frames_until_ball_release = 0
  · obtain ⟨p1, _, p3, p4, _⟩ := movePaddles_frame reg s
    have b := movePlayer_y_bounds reg s hb.1
    rw [← p1] at b
    rw [step_of_zero reg s hc, (moveBall_frame _).2.2.1]
    unfold collide
    split_ifs with hp he
    · simp only [hitPlayer, p4]
      split_ifs
      · right; right; right; right; left; rfl
      · right; right; left; rfl
      · right; right; right; left; rfl
    · simp only [hitEnemy, p4]
      split_ifs
      · right; right; right; right; left; rfl
      · right; right; left; rfl
      · right; right; right; left; rfl
    · by_cases hx : (movePaddles reg s).ball_pos.x ≤ 0 ∨ (movePaddles reg s).ball_pos.x ≥ 232
      · rw [wallBounce_respawn_of_miss _ b hx]
        right; right; right; right; right; rfl
      · have hr : respawn (movePaddles reg s) = movePaddles reg s := by
          unfold respawn; rw [if_neg]; rw [ball_max_clamp_x]; exact hx
        rw [hr]
        unfold wallBounce
        split_ifs
        · right; left; simp only [p4]
        · left; exact p4
  · left
    unfold step
    rw [if_pos (by omega)]

theorem C10_velocity_changes_witness :
    (step noKeys (mkState 5 96 227 96 100 152 2 3 0)).ball_vel = ⟨2, -3⟩ ∧
    ((step noKeys (mkState 5 96 227 96 100 152 2 3 0)).ball_vel = ⟨2, 3⟩ ∨
    (step noKeys (mkState 5 96 227 96 100 152 2 3 0)).ball_vel = ⟨2, -3⟩ ∨
    (step noKeys (mkState 5 96 227 96 100 152 2 3 0)).ball_vel = ⟨-2, 3 - 1⟩ ∨
    (step noKeys (mkState 5 96 227 96 100 152 2 3 0)).ball_vel = ⟨-2, 3⟩ ∨
    (step noKeys (mkState 5 96 227 96 100 152 2 3 0)).ball_vel = ⟨-2, 3 + 1⟩ ∨
    (step noKeys (mkState 5 96 227 96 100 152 2 3 0)).ball_vel = ⟨2, 1⟩) :=
  ⟨by decide, C10_velocity_changes noKeys (mkState 5 96 227 96 100 152 2 3 0) (by decide)⟩

/-! ## Further auxiliary facts -/

/-- With the countdown at zero, the paddles after a frame are the paddles that
the collision test of the frame saw. -/
theorem step_paddles (reg : Nat) (s : State) (hc : s.frames_until_ball_release = 0) :
    (step reg s).player_pos = (movePlayer reg s).player_pos ∧
    (step reg s).enemy_pos = (movePaddles reg s).enemy_pos := by
  obtain ⟨m1, m2, _, _⟩ := moveBall_frame (collide (movePaddles reg s))
  obtain ⟨c1, c2⟩ := collide_paddles (movePaddles reg s)
  obtain ⟨p1, _, _, _, _⟩ := movePaddles_frame reg s
  rw [step_of_zero reg s hc, m1, m2, c1, c2, p1]
  exact ⟨rfl, rfl⟩

/-- No frame moves a paddle sideways. -/
theorem step_columns (reg : Nat) (s : State) :
    (step reg s).player_pos.x = s.player_pos.x ∧ (step reg s).enemy_pos.x = s.enemy_pos.x := by
  by_cases hc : s.frames_until_ball_release = 0
  · obtain ⟨a, b⟩ := step_paddles reg s hc
    obtain ⟨_, p2, _, _, _⟩ := movePaddles_frame reg s
    obtain ⟨q1, _, _, _, _⟩ := movePlayer_frame reg s
    rw [a, b]
    exact ⟨q1, p2⟩
  · unfold step
    rw [if_pos (by omega)]
    exact ⟨rfl, rfl⟩

/-- In every reachable state the paddles stand at x = 5 and x = 227. -/
theorem run_columns (regs : List Nat) : Columns (run regs initial) := by
  induction regs using List.reverseRecOn with
  | nil => exact ⟨by decide, by decide⟩
  | append_singleton regs r ih =>
    obtain ⟨a, b⟩ := step_columns r (run regs initial)
    rw [run_append_one]
    exact ⟨by rw [a]; exact ih.1, by rw [b]; exact ih.2⟩

/-- The paddles seen by the collision test stand in the same columns. -/
theorem movePaddles_columns (reg : Nat) (s : State) (h : Columns s) :
    Columns (movePaddles reg s) := by
  obtain ⟨p1, p2, _, _, _⟩ := movePaddles_frame reg s
  obtain ⟨q1, _, _, _, _⟩ := movePlayer_frame reg s
  exact ⟨by rw [p1, q1]; exact h.1, by rw [p2]; exact h.2⟩

/-- With the paddles in their columns the ball cannot overlap both. -/
theorem not_both_of_columns (s : State) (h : Columns s) :
    ¬ (intersects (ballRect s) (playerRect s) = true ∧
       intersects (ballRect s) (enemyRect s) = true) := by
  rw [intersects_player_iff, intersects_enemy_iff]
  obtain ⟨a, b⟩ := h
  rw [a, b]
  omega

/-! ## The claims C11 to C20 -/

/-- C11 (mutually exclusive hits). In every reachable state the ball rectangle
does not intersect the player-paddle rectangle and the enemy-paddle rectangle
at the same time, neither in the state itself nor at the collision test of the
next frame under any key input; so exactly one of player-paddle hit,
enemy-paddle hit and no paddle hit applies in the frame, and testing the enemy
paddle first gives the same result as the order of the code. -/
theorem C11_exclusive_hits (regs : List Nat) (reg : Nat) :
    ¬ (intersects (ballRect (run regs initial)) (playerRect (run regs initial)) = true ∧
       intersects (ballRect (run regs initial)) (enemyRect (run regs initial)) = true) ∧
    ¬ (intersects (ballRect (movePaddles reg (run regs initial)))
          (playerRect (movePaddles reg (run regs initial))) = true ∧
       intersects (ballRect (movePaddles reg (run regs initial)))
          (enemyRect (movePaddles reg (run regs initial))) = true) ∧
    ((intersects (ballRect (movePaddles reg (run regs initial)))
          (playerRect (movePaddles reg (run regs initial))) = true ∧
        intersects (ballRect (movePaddles reg (run regs initial)))
          (enemyRect (movePaddles reg (run regs initial))) = false ∧
        collide (movePaddles reg (run regs initial)) =
          hitPlayer (movePaddles reg (run regs initial))) ∨
      (intersects (ballRect (movePaddles reg (run regs initial)))
          (playerRect (movePaddles reg (run regs initial))) = false ∧
        intersects (ballRect (movePaddles reg (run regs initial)))
          (enemyRect (movePaddles reg (run regs initial))) = true ∧
        collide (movePaddles reg (run regs initial)) =
          hitEnemy (movePaddles reg (run regs initial))) ∨
      (intersects (ballRect (movePaddles reg (run regs initial)))
          (playerRect (movePaddles reg (run regs initial))) = false ∧
        intersects (ballRect (movePaddles reg (run regs initial)))
          (enemyRect (movePaddles reg (run regs initial))) = false ∧
        collide (movePaddles reg (run regs initial)) =
          wallBounce (respawn (movePaddles reg (run regs initial))))) ∧
    collide (movePaddles reg (run regs initial)) =
      collideEnemyFirst (movePaddles reg (run regs initial)) := by
  have hs := run_columns regs
  have ht := movePaddles_columns reg _ hs
  have n1 := not_both_of_columns _ hs
  have n2 := not_both_of_columns _ ht
  refine ⟨n1, n2, ?_, ?_⟩
  · unfold collide
    cases hp : intersects (ballRect (movePaddles reg (run regs initial)))
        (playerRect (movePaddles reg (run regs initial))) <;>
      cases he : intersects (ballRect (movePaddles reg (run regs initial)))
        (enemyRect (movePaddles reg (run regs initial))) <;>
      simp_all
  · unfold collide collideEnemyFirst
    cases hp : intersects (ballRect (movePaddles reg (run regs initial)))
        (playerRect (movePaddles reg (run regs initial))) <;>
      cases he : intersects (ballRect (movePaddles reg (run regs initial)))
        (enemyRect (movePaddles reg (run regs initial))) <;>
      simp_all

/-- C12, as stated, fails: with the enemy paddle at y = 96 and the ball at
y = 105, the ball is above the paddle's vertical middle (`105 < 96 + 16`), the
state is in bounds and its countdown is 0, yet the enemy paddle stays at
y = 96 instead of moving up to 94: line 90 moves it up only when
`ball.y ≤ enemy.y + 4`. -/
theorem C12_enemy_up_counterexample :
    InBounds (mkState 5 96 227 96 100 105 2 1 0) ∧
    (mkState 5 96 227 96 100 105 2 1 0).frames_until_ball_release = 0 ∧
    (mkState 5 96 227 96 100 105 2 1 0).ball_pos.y <
      (mkState 5 96 227 96 100 105 2 1 0).enemy_pos.y + paddle_height / 2 ∧
    (step noKeys (mkState 5 96 227 96 100 105 2 1 0)).enemy_pos.y = 96 ∧
    (step noKeys (mkState 5 96 227 96 100 105 2 1 0)).enemy_pos.y ≠
      clamp ((mkState 5 96 227 96 100 105 2 1 0).enemy_pos.y - 2) 0 128 := by
  decide

/-- C12, amended. For every state with countdown 0 in which the ball's top
edge is at most `ball_height / 2 = 4` below the enemy paddle's top edge
(`ball.y ≤ enemy.y + 4`), and every key input, the frame moves the enemy paddle
up by the fixed speed: `enemy.y' = clamp (enemy.y - 2) 0 128`. -/
theorem C12_enemy_up (reg : Nat) (s : State)
    (hc : s.frames_until_ball_release = 0)
    (h : s.ball_pos.y ≤ s.enemy_pos.y + 4) :
    (step reg s).enemy_pos.y = clamp (s.enemy_pos.y - 2) 0 128 := by
  obtain ⟨_, q2, q3, _, _⟩ := movePlayer_frame reg s
  rw [(step_paddles reg s hc).2]
  unfold movePaddles moveEnemy
  rw [if_pos (by rw [q2, q3]; simp only [ball_height]; omega), q2]
  rfl

theorem C12_enemy_up_witness :
    (step noKeys (mkState 5 96 227 96 100 99 2 1 0)).enemy_pos.y = 94 ∧
    (step noKeys (mkState 5 96 227 96 100 99 2 1 0)).enemy_pos.y = clamp (96 - 2) 0 128 :=
  ⟨by decide, C12_enemy_up noKeys (mkState 5 96 227 96 100 99 2 1 0) (by decide) (by decide)⟩

/-- A frame that starts with the countdown at zero and ends with it at 32 has
served the ball again: the ball was at a horizontal bound and the collision
tests of the frame found neither paddle. -/
theorem miss_of_countdown (reg : Nat) (s : State)
    (hc : s.frames_until_ball_release = 0)
    (h32 : (step reg s).frames_until_ball_release = 32) :
    (s.ball_pos.x ≤ 0 ∨ s.ball_pos.x ≥ 232) ∧
    intersects (ballRect (movePaddles reg s)) (playerRect (movePaddles reg s)) = false ∧
    intersects (ballRect (movePaddles reg s)) (enemyRect (movePaddles reg s)) = false := by
  obtain ⟨_, _, p3, _, p5⟩ := movePaddles_frame reg s
  rw [step_of_zero reg s hc, (moveBall_frame _).2.2.2] at h32
  unfold collide at h32
  split_ifs at h32 with hp he
  · have : (hitPlayer (movePaddles reg s)).frames_until_ball_release = 0 := by
      show (movePaddles reg s).frames_until_ball_release = 0; rw [p5, hc]
    omega
  · have : (hitEnemy (movePaddles reg s)).frames_until_ball_release = 0 := by
      show (movePaddles reg s).frames_until_ball_release = 0; rw [p5, hc]
    omega
  · refine ⟨?_, by simpa using hp, by simpa using he⟩
    by_contra hx
    have hr : respawn (movePaddles reg s) = movePaddles reg s := by
      unfold respawn; rw [if_neg]; rw [p3, ball_max_clamp_x]; exact hx
    rw [hr] at h32
    unfold wallBounce at h32
    split_ifs at h32 <;>
      (have : (movePaddles reg s).frames_until_ball_release = 0 := by rw [p5, hc]) <;>
      simp_all

/-- Outside the bounds both checks of the last branch can fire in one frame:
with the player paddle at y = 140, below its range, the ball is served at
y = 152, on the bottom bound, and line 128 negates the start velocity. -/
theorem miss_and_bounce_outside_bounds :
    ¬ InBounds (mkState 5 140 227 96 232 60 2 3 0) ∧
    (step noKeys (mkState 5 140 227 96 232 60 2 3 0)).ball_vel = ⟨2, -1⟩ ∧
    (step noKeys (mkState 5 140 227 96 232 60 2 3 0)).frames_until_ball_release = 32 := by
  decide

/-- C13, as stated, fails: no in-bounds state with countdown 0 has a frame,
under any key input, that performs the miss reset (countdown 32 afterwards)
and leaves the velocity (2,-1). -/
theorem C13_miss_and_bounce_counterexample :
    ¬ ∃ (reg : Nat) (s : State), InBounds s ∧ s.frames_until_ball_release = 0 ∧
      (step reg s).frames_until_ball_release = 32 ∧ (step reg s).ball_vel = ⟨2, -1⟩ := by
  rintro ⟨reg, s, hb, hc, h32, hv⟩
  obtain ⟨hx, hp, he⟩ := miss_of_countdown reg s hc h32
  have h := (step_of_miss reg s hc hb.1 hx hp he).1
  rw [h] at hv
  revert hv
  decide

/-- C13, amended. For every in-bounds state with countdown 0 in which the ball
is at or beyond a horizontal bound (also when it is at or beyond a vertical
bound as well) and every key input for which the collision tests of the frame
find neither paddle: the frame performs the miss reset, the vertical-bound test
of line 128 is then made on the respawned ball position, whose y is
`player.y' + 12` and so between 12 and 140, and does not fire; the frame
leaves the countdown at 32 and the velocity (2,1), never (2,-1). -/
theorem C13_miss_and_bounce (reg : Nat) (s : State) (hb : InBounds s)
    (hc : s.frames_until_ball_release = 0)
    (hx : s.ball_pos.x ≤ 0 ∨ s.ball_pos.x ≥ 232)
    (hp : intersects (ballRect (movePaddles reg s)) (playerRect (movePaddles reg s)) = false)
    (he : intersects (ballRect (movePaddles reg s)) (enemyRect (movePaddles reg s)) = false) :
    collide (movePaddles reg s) = respawn (movePaddles reg s) ∧
    (respawn (movePaddles reg s)).ball_pos.y = (movePlayer reg s).player_pos.y + 12 ∧
    (12 ≤ (respawn (movePaddles reg s)).ball_pos.y ∧
      (respawn (movePaddles reg s)).ball_pos.y ≤ 140) ∧
    (step reg s).frames_until_ball_release = 32 ∧
    (step reg s).ball_vel = ⟨2, 1⟩ ∧ (step reg s).ball_vel ≠ ⟨2, -1⟩ := by
  obtain ⟨p1, _, p3, _, _⟩ := movePaddles_frame reg s
  have b := movePlayer_y_bounds reg s hb.1
  have hx2 : (movePaddles reg s).ball_pos.x ≤ 0 ∨
      (movePaddles reg s).ball_pos.x ≥ ball_max_clamp.x := by
    rw [p3, ball_max_clamp_x]; exact hx
  have hy : (respawn (movePaddles reg s)).ball_pos.y = (movePlayer reg s).player_pos.y + 12 := by
    unfold respawn
    rw [if_pos hx2, ← p1]
    simp only [paddle_height, ball_height]
    omega
  have hw : wallBounce (respawn (movePaddles reg s)) = respawn (movePaddles reg s) := by
    unfold wallBounce
    rw [if_neg]
    rw [hy, ball_max_clamp_y]
    omega
  obtain ⟨hv, h32, _⟩ := step_of_miss reg s hc hb.1 hx hp he
  refine ⟨by rw [collide_of_neither _ hp he, hw], hy, by rw [hy]; omega, h32, hv, ?_⟩
  rw [hv]
  decide

theorem C13_miss_and_bounce_witness :
    InBounds (mkState 5 96 227 40 232 152 2 3 0) ∧
    (mkState 5 96 227 40 232 152 2 3 0).ball_pos.y ≥ 152 ∧
    (step noKeys (mkState 5 96 227 40 232 152 2 3 0)).ball_vel = ⟨2, 1⟩ ∧
    (step noKeys (mkState 5 96 227 40 232 152 2 3 0)).frames_until_ball_release = 32 :=
  ⟨by decide, by decide,
    (C13_miss_and_bounce noKeys (mkState 5 96 227 40 232 152 2 3 0) (by decide) (by decide)
      (by decide) (by decide) (by decide)).2.2.2.2.1,
    (C13_miss_and_bounce noKeys (mkState 5 96 227 40 232 152 2 3 0) (by decide) (by decide)
      (by decide) (by decide) (by decide)).2.2.2.1⟩

/-- C14 (player movement). For every in-bounds state with countdown 0: if only
"up" is held then `player.y' = max 0 (player.y - 2)`; if only "down" is held
then `player.y' = min 128 (player.y + 2)`; if neither is held `player.y` is
unchanged; and in all cases `player.x` is unchanged. -/
theorem C14_player_movement (reg : Nat) (s : State) (hb : InBounds s)
    (hc : s.frames_until_ball_release = 0) :
    (upPressed reg → ¬ downPressed reg →
      (step reg s).player_pos.y = max 0 (s.player_pos.y - 2)) ∧
    (¬ upPressed reg → downPressed reg →
      (step reg s).player_pos.y = min 128 (s.player_pos.y + 2)) ∧
    (¬ upPressed reg → ¬ downPressed reg → (step reg s).player_pos.y = s.player_pos.y) ∧
    (step reg s).player_pos.x = s.player_pos.x := by
  obtain ⟨h0, h1⟩ := hb.1
  rw [(step_paddles reg s hc).1]
  refine ⟨?_, ?_, ?_, (movePlayer_frame reg s).1⟩
  · intro hu hd
    unfold upPressed at hu
    unfold downPressed at hd
    unfold movePlayer
    simp only [if_pos hu, if_neg hd, player_velocity, paddle_max_y_eq]
    unfold clamp
    split_ifs <;> omega
  · intro hu hd
    unfold upPressed at hu
    unfold downPressed at hd
    unfold movePlayer
    simp only [if_neg hu, if_pos hd, player_velocity, paddle_max_y_eq]
    unfold clamp
    split_ifs <;> omega
  · intro hu hd
    unfold upPressed at hu
    unfold downPressed at hd
    unfold movePlayer
    simp only [if_neg hu, if_neg hd]

theorem C14_player_movement_witness :
    (upPressed upKey ∧ ¬ downPressed upKey) ∧
    (step upKey (mkState 5 1 227 96 100 60 2 1 0)).player_pos.y = 0 ∧
    ((upPressed upKey → ¬ downPressed upKey →
      (step upKey (mkState 5 1 227 96 100 60 2 1 0)).player_pos.y = max 0 (1 - 2)) ∧
    (¬ upPressed upKey → downPressed upKey →
      (step upKey (mkState 5 1 227 96 100 60 2 1 0)).player_pos.y = min 128 (1 + 2)) ∧
    (¬ upPressed upKey → ¬ downPressed upKey →
      (step upKey (mkState 5 1 227 96 100 60 2 1 0)).player_pos.y = 1) ∧
    (step upKey (mkState 5 1 227 96 100 60 2 1 0)).player_pos.x = 5) :=
  ⟨by decide, by decide,
    C14_player_movement upKey (mkState 5 1 227 96 100 60 2 1 0) (by decide) (by decide)⟩

/-- The second branch of the collision resolution. -/
theorem collide_of_enemy (s : State) (hp : intersects (ballRect s) (playerRect s) = false)
    (he : intersects (ballRect s) (enemyRect s) = true) :
    collide s = hitEnemy s := by
  unfold collide; simp [hp, he]

/-- C15, as stated, fails on the boundary of the bottom quarter: with the enemy
paddle at (227,96) and the ball at (225,120), velocity (2,1), countdown 0 and
no key held, the state is in bounds and the ball intersects the enemy paddle
and not the player paddle; the ball's rows 120..127 are exactly the rows of
the paddle's bottom quarter (`ball.y - enemy.y = 24`), the enemy paddle does
not move, and the vertical velocity stays 1 instead of becoming 2: line 113
tests `> 24`. The horizontal part of the claim holds: the velocity is negated
and the ball ends at `clamp (227 - 8 - 2) 0 232 = 217`. -/
theorem C15_enemy_hit_counterexample :
    InBounds (mkState 5 96 227 96 225 120 2 1 0) ∧
    (mkState 5 96 227 96 225 120 2 1 0).frames_until_ball_release = 0 ∧
    intersects (ballRect (mkState 5 96 227 96 225 120 2 1 0))
      (enemyRect (mkState 5 96 227 96 225 120 2 1 0)) = true ∧
    intersects (ballRect (mkState 5 96 227 96 225 120 2 1 0))
      (playerRect (mkState 5 96 227 96 225 120 2 1 0)) = false ∧
    (mkState 5 96 227 96 225 120 2 1 0).ball_pos.y -
      (mkState 5 96 227 96 225 120 2 1 0).enemy_pos.y = paddle_height * 3 / 4 ∧
    (step noKeys (mkState 5 96 227 96 225 120 2 1 0)).enemy_pos =
      (mkState 5 96 227 96 225 120 2 1 0).enemy_pos ∧
    (step noKeys (mkState 5 96 227 96 225 120 2 1 0)).ball_vel = ⟨-2, 1⟩ ∧
    (step noKeys (mkState 5 96 227 96 225 120 2 1 0)).ball_vel.y ≠
      (mkState 5 96 227 96 225 120 2 1 0).ball_vel.y + 1 ∧
    (step noKeys (mkState 5 96 227 96 225 120 2 1 0)).ball_pos.x = 217 := by
  decide

/-- C15, amended. For every state with countdown 0 and every key input for
which, at the collision test of the frame (after the paddle movement), the ball
intersects the enemy paddle and not the player paddle: the frame negates the
horizontal velocity; with `d = ball.y - enemy.y'`, where `enemy.y'` is the
enemy paddle's position after the frame's enemy movement, the vertical
velocity goes up by 1 when `d > 24`, down by 1 when `d < 8`, and is unchanged
when `8 ≤ d ≤ 24`; and `ball.x` after the frame is
`clamp (enemy.x - 8 + vx') 0 232` for the negated horizontal velocity `vx'`. -/
theorem C15_enemy_hit (reg : Nat) (s : State)
    (hc : s.frames_until_ball_release = 0)
    (hp : intersects (ballRect (movePaddles reg s)) (playerRect (movePaddles reg s)) = false)
    (he : intersects (ballRect (movePaddles reg s)) (enemyRect (movePaddles reg s)) = true) :
    (step reg s).ball_vel.x = -s.ball_vel.x ∧
    (s.ball_pos.y - (step reg s).enemy_pos.y > 24 →
      (step reg s).ball_vel.y = s.ball_vel.y + 1) ∧
    (s.ball_pos.y - (step reg s).enemy_pos.y < 8 →
      (step reg s).ball_vel.y = s.ball_vel.y - 1) ∧
    (8 ≤ s.ball_pos.y - (step reg s).enemy_pos.y →
      s.ball_pos.y - (step reg s).enemy_pos.y ≤ 24 →
      (step reg s).ball_vel.y = s.ball_vel.y) ∧
    (step reg s).ball_pos.x = clamp (s.enemy_pos.x - paddle_width + -s.ball_vel.x) 0 232 := by
  obtain ⟨_, p2, p3, p4, _⟩ := movePaddles_frame reg s
  rw [(step_paddles reg s hc).2, step_of_zero reg s hc, collide_of_enemy _ hp he]
  simp only [moveBall, hitEnemy, p2, p3, p4, paddle_height, ball_max_clamp_x]
  refine ⟨trivial, ?_, ?_, ?_, trivial⟩
  · intro h; rw [if_pos (by omega)]
  · intro h; rw [if_neg (by omega), if_pos (by omega)]
  · intro h1 h2; rw [if_neg (by omega), if_neg (by omega)]

theorem C15_enemy_hit_witness :
    (step noKeys (mkState 5 96 227 96 225 124 2 1 0)).enemy_pos.y = 98 ∧
    (step noKeys (mkState 5 96 227 96 225 124 2 1 0)).ball_vel = ⟨-2, 2⟩ ∧
    (step noKeys (mkState 5 96 227 96 225 124 2 1 0)).ball_pos.x =
      clamp (227 - paddle_width + -2) 0 232 :=
  ⟨by decide, by decide,
    (C15_enemy_hit noKeys (mkState 5 96 227 96 225 124 2 1 0) (by decide) (by decide)
      (by decide)).2.2.2.2⟩

/-- C16, as stated, fails, because the player paddle moves before the collision
test: with the player paddle at (5,96), the ball at (6,103) and velocity
(-2,1), countdown 0 and "up" held, the ball intersects the paddle and its
offset `ball.y - player.y = 7` is in the top quarter; but the paddle steps up
to y = 94, the offset tested at line 105 is 9, and the vertical velocity stays
1 instead of becoming 0. -/
theorem C16_top_quarter_counterexample :
    (mkState 5 96 227 96 6 103 (-2) 1 0).frames_until_ball_release = 0 ∧
    intersects (ballRect (mkState 5 96 227 96 6 103 (-2) 1 0))
      (playerRect (mkState 5 96 227 96 6 103 (-2) 1 0)) = true ∧
    0 ≤ (mkState 5 96 227 96 6 103 (-2) 1 0).ball_pos.y -
      (mkState 5 96 227 96 6 103 (-2) 1 0).player_pos.y ∧
    (mkState 5 96 227 96 6 103 (-2) 1 0).ball_pos.y -
      (mkState 5 96 227 96 6 103 (-2) 1 0).player_pos.y < paddle_height / 4 ∧
    (step upKey (mkState 5 96 227 96 6 103 (-2) 1 0)).player_pos.y = 94 ∧
    (step upKey (mkState 5 96 227 96 6 103 (-2) 1 0)).ball_vel.y = 1 ∧
    (step upKey (mkState 5 96 227 96 6 103 (-2) 1 0)).ball_vel.y ≠
      (mkState 5 96 227 96 6 103 (-2) 1 0).ball_vel.y - 1 := by
  decide

/-- C16, amended. For every state with countdown 0 and every key input for
which the ball rectangle intersects the player-paddle rectangle as the paddle
stands after this frame's player movement, with `d = ball.y - player.y'` the
ball's vertical offset from that paddle position: when `0 ≤ d < 8` (top
quarter) the vertical velocity after the frame is its previous value minus 1,
and when `8 ≤ d < 24` it is unchanged. -/
theorem C16_top_quarter (reg : Nat) (s : State)
    (hc : s.frames_until_ball_release = 0)
    (hi : intersects (ballRect (movePaddles reg s)) (playerRect (movePaddles reg s)) = true) :
    (0 ≤ s.ball_pos.y - (movePlayer reg s).player_pos.y →
      s.ball_pos.y - (movePlayer reg s).player_pos.y < 8 →
      (step reg s).ball_vel.y = s.ball_vel.y - 1) ∧
    (8 ≤ s.ball_pos.y - (movePlayer reg s).player_pos.y →
      s.ball_pos.y - (movePlayer reg s).player_pos.y < 24 →
      (step reg s).ball_vel.y = s.ball_vel.y) := by
  obtain ⟨p1, _, p3, p4, _⟩ := movePaddles_frame reg s
  rw [step_of_zero reg s hc, collide_of_player _ hi]
  simp only [moveBall, hitPlayer, p1, p3, p4, paddle_height]
  refine ⟨?_, ?_⟩
  · intro _ h; rw [if_neg (by omega), if_pos (by omega)]
  · intro h1 h2; rw [if_neg (by omega), if_neg (by omega)]

theorem C16_top_quarter_witness :
    (mkState 5 96 227 96 6 103 (-2) 1 0).ball_pos.y -
      (movePlayer downKey (mkState 5 96 227 96 6 103 (-2) 1 0)).player_pos.y = 5 ∧
    (step downKey (mkState 5 96 227 96 6 103 (-2) 1 0)).ball_vel.y = 1 - 1 :=
  ⟨by decide,
    (C16_top_quarter downKey (mkState 5 96 227 96 6 103 (-2) 1 0) (by decide) (by decide)).1
      (by decide) (by decide)⟩

/-- The velocity after a frame, from any state: unchanged, bounced off a
wall, reflected by a paddle with a deflection of at most one, or the start
velocity, itself possibly bounced. -/
theorem step_vel_cases (reg : Nat) (s : State) :
    (step reg s).ball_vel = s.ball_vel ∨
    (step reg s).ball_vel = ⟨s.ball_vel.x, -s.ball_vel.y⟩ ∨
    (step reg s).ball_vel = ⟨-s.ball_vel.x, s.ball_vel.y - 1⟩ ∨
    (step reg s).ball_vel = ⟨-s.ball_vel.x, s.ball_vel.y⟩ ∨
    (step reg s).ball_vel = ⟨-s.ball_vel.x, s.ball_vel.y + 1⟩ ∨
    (step reg s).ball_vel = ⟨2, 1⟩ ∨
    (step reg s).ball_vel = ⟨2, -1⟩ := by
  by_cases hc : s.frames_until_ball_release = 0
  · obtain ⟨_, _, _, p4, _⟩ := movePaddles_frame reg s
    rw [step_of_zero reg s hc, (moveBall_frame _).2.2.1]
    unfold collide
    split_ifs with hp he
    · simp only [hitPlayer, p4]
      split_ifs
      · right; right; right; right; left; rfl
      · right; right; left; rfl
      · right; right; right; left; rfl
    · simp only [hitEnemy, p4]
      split_ifs
      · right; right; right; right; left; rfl
      · right; right; left; rfl
      · right; right; right; left; rfl
    · unfold wallBounce respawn
      split_ifs
      · right; right; right; right; right; right; rfl
      · right; right; right; right; right; left; rfl
      · right; left; simp only [p4]
      · left; exact p4
  · left
    unfold step
    rw [if_pos (by omega)]

/-- C17, as stated, fails: with the player paddle at (5,96), the ball at
(6,123) and velocity (-2,7), countdown 0 and no key held, the state is in
bounds and both velocity components are below 8 in magnitude; the ball hits the
paddle in its bottom quarter and the vertical velocity becomes 8. -/
theorem C17_velocity_bound_counterexample :
    InBounds (mkState 5 96 227 96 6 123 (-2) 7 0) ∧
    |(mkState 5 96 227 96 6 123 (-2) 7 0).ball_vel.x| < 8 ∧
    |(mkState 5 96 227 96 6 123 (-2) 7 0).ball_vel.y| < 8 ∧
    (step noKeys (mkState 5 96 227 96 6 123 (-2) 7 0)).ball_vel = ⟨2, 8⟩ ∧
    ¬ |(step noKeys (mkState 5 96 227 96 6 123 (-2) 7 0)).ball_vel.y| < 8 := by
  decide

/-- C17, amended. For every state with `|ball_vel.x| < 8` and every key input,
the state after one frame again has `|ball_vel.x| < 8`, and the vertical speed
has grown by at most one: `|ball_vel.y'| ≤ |ball_vel.y| + 1`. The horizontal
bound is preserved; the vertical bound is not, it can be passed by one paddle
deflection per frame. -/
theorem C17_velocity_bound (reg : Nat) (s : State) (hx : |s.ball_vel.x| < 8) :
    |(step reg s).ball_vel.x| < 8 ∧ |(step reg s).ball_vel.y| ≤ |s.ball_vel.y| + 1 := by
  have a1 := le_abs_self s.ball_vel.y
  have a2 := neg_abs_le s.ball_vel.y
  have a3 := abs_nonneg s.ball_vel.y
  rw [abs_lt] at hx
  rcases step_vel_cases reg s with h | h | h | h | h | h | h <;>
    rw [h] <;> refine ⟨?_, ?_⟩ <;> (try rw [abs_lt]) <;> (try rw [abs_le]) <;>
    (try dsimp only) <;> omega

theorem C17_velocity_bound_witness :
    (step noKeys (mkState 5 96 227 96 6 123 (-2) 7 0)).ball_vel.y = 8 ∧
    |(step noKeys (mkState 5 96 227 96 6 123 (-2) 7 0)).ball_vel.x| < 8 ∧
    |(step noKeys (mkState 5 96 227 96 6 123 (-2) 7 0)).ball_vel.y| ≤ |(7 : Int)| + 1 :=
  ⟨by decide, C17_velocity_bound noKeys (mkState 5 96 227 96 6 123 (-2) 7 0) (by decide)⟩

/-- The horizontal effect of the collision resolution, branch by branch. -/
theorem collide_horizontal (t : State) :
    (intersects (ballRect t) (playerRect t) = true ∧
      (collide t).ball_pos.x = t.player_pos.x + 8 ∧
      (collide t).ball_vel.x = -t.ball_vel.x) ∨
    (intersects (ballRect t) (playerRect t) = false ∧
      intersects (ballRect t) (enemyRect t) = true ∧
      (collide t).ball_pos.x = t.enemy_pos.x - 8 ∧
      (collide t).ball_vel.x = -t.ball_vel.x) ∨
    (intersects (ballRect t) (playerRect t) = false ∧
      intersects (ballRect t) (enemyRect t) = false ∧
      (t.ball_pos.x ≤ 0 ∨ t.ball_pos.x ≥ 232) ∧
      (collide t).ball_pos.x = t.player_pos.x + 16 ∧
      (collide t).ball_vel.x = 2) ∨
    (intersects (ballRect t) (playerRect t) = false ∧
      intersects (ballRect t) (enemyRect t) = false ∧
      (0 < t.ball_pos.x ∧ t.ball_pos.x < 232) ∧
      (collide t).ball_pos.x = t.ball_pos.x ∧
      (collide t).ball_vel.x = t.ball_vel.x) := by
  cases hp : intersects (ballRect t) (playerRect t)
  · cases he : intersects (ballRect t) (enemyRect t)
    · rw [collide_of_neither t hp he]
      by_cases hx : t.ball_pos.x ≤ 0 ∨ t.ball_pos.x ≥ 232
      · right; right; left
        have hr : respawn t =
            { t with
              ball_vel := start_ball_vel
              ball_pos :=
                ⟨t.player_pos.x + paddle_width * 2,
                  t.player_pos.y + paddle_height / 2 - ball_height / 2⟩
              frames_until_ball_release := 32 } := by
          unfold respawn; rw [if_pos (by rw [ball_max_clamp_x]; exact hx)]
        refine ⟨rfl, rfl, hx, ?_, ?_⟩ <;>
          (rw [hr]; unfold wallBounce; split_ifs <;> simp [paddle_width, start_ball_vel])
      · right; right; right
        have hr : respawn t = t := by
          unfold respawn; rw [if_neg]; rw [ball_max_clamp_x]; exact hx
        refine ⟨rfl, rfl, by omega, ?_, ?_⟩ <;>
          (rw [hr]; unfold wallBounce; split_ifs <;> rfl)
    · right; left
      rw [collide_of_enemy t hp he]
      exact ⟨rfl, rfl, rfl, rfl⟩
  · left
    rw [collide_of_player t hp]
    exact ⟨rfl, rfl, rfl⟩

/-- The horizontal effect of the ball movement at the end of a frame. -/
theorem step_horizontal (reg : Nat) (s : State) (hc : s.frames_until_ball_release = 0) :
    (step reg s).ball_pos.x =
      clamp ((collide (movePaddles reg s)).ball_pos.x +
        (collide (movePaddles reg s)).ball_vel.x) 0 232 ∧
    (step reg s).ball_vel.x = (collide (movePaddles reg s)).ball_vel.x := by
  rw [step_of_zero reg s hc]
  simp only [moveBall, ball_max_clamp_x]
  exact ⟨trivial, trivial⟩

/-- With the paddles in their columns, a frame keeps the horizontal-motion
invariant. -/
theorem step_horizInv (reg : Nat) (s : State) (hcol : Columns s) (h : HorizInv s) :
    HorizInv (step reg s) := by
  by_cases hc : s.frames_until_ball_release = 0
  · obtain ⟨sx, sv⟩ := step_horizontal reg s hc
    obtain ⟨cp, ce⟩ := movePaddles_columns reg s hcol
    obtain ⟨_, _, p3, p4, _⟩ := movePaddles_frame reg s
    obtain ⟨hv, hr, hl⟩ := h
    unfold HorizInv
    rw [sx, sv]
    rcases collide_horizontal (movePaddles reg s) with
      ⟨hp, e1, e2⟩ | ⟨_, he, e1, e2⟩ | ⟨_, _, hx, e1, e2⟩ | ⟨_, _, hx, e1, e2⟩
    · rw [intersects_player_iff, cp, p3] at hp
      rw [e1, e2, cp, p4]
      unfold clamp
      refine ⟨?_, ?_, ?_⟩ <;> (try split_ifs) <;> omega
    · rw [intersects_enemy_iff, ce, p3] at he
      rw [e1, e2, ce, p4]
      unfold clamp
      refine ⟨?_, ?_, ?_⟩ <;> (try split_ifs) <;> omega
    · rw [e1, e2, cp]
      unfold clamp
      refine ⟨?_, ?_, ?_⟩ <;> (try split_ifs) <;> omega
    · rw [p3] at hx
      rw [e1, e2, p3, p4]
      unfold clamp
      refine ⟨?_, ?_, ?_⟩ <;> (try split_ifs) <;> omega
  · have e : step reg s =
        { s with frames_until_ball_release := s.frames_until_ball_release - 1 } := by
      unfold step; rw [if_pos (by omega)]
    rw [e]
    exact h

/-- Every reachable state satisfies the horizontal-motion invariant. -/
theorem run_horizInv (regs : List Nat) : HorizInv (run regs initial) := by
  induction regs using List.reverseRecOn with
  | nil => decide
  | append_singleton regs r ih =>
    rw [run_append_one]
    exact step_horizInv r _ (run_columns regs) ih

/-- A ball at x = 15 or further right does not overlap a player paddle in
column 5, and a ball at x = 217 or further left does not overlap an enemy
paddle in column 227, at the collision test of any frame. -/
theorem clear_of_paddles (reg : Nat) (u : State) (hcol : Columns u) :
    (15 ≤ u.ball_pos.x →
      intersects (ballRect (movePaddles reg u)) (playerRect (movePaddles reg u)) = false) ∧
    (u.ball_pos.x ≤ 217 →
      intersects (ballRect (movePaddles reg u)) (enemyRect (movePaddles reg u)) = false) := by
  obtain ⟨cp, ce⟩ := movePaddles_columns reg u hcol
  obtain ⟨_, _, p3, _, _⟩ := movePaddles_frame reg u
  refine ⟨?_, ?_⟩
  · intro h
    rw [Bool.eq_false_iff, Ne, intersects_player_iff, cp, p3]
    omega
  · intro h
    rw [Bool.eq_false_iff, Ne, intersects_enemy_iff, ce, p3]
    omega

/-- C18 (horizontal-motion invariant). In every state reachable from the
initial state under any inputs, the horizontal ball velocity is exactly 2 or
-2, a ball with velocity 2 is at `x ≥ 15` and a ball with velocity -2 is at
`x ≤ 217`. Consequently, in a frame of such a state with countdown 0: when the
collision test finds the player paddle the ball was moving left, it leaves the
frame moving right at x = 15, and at the collision test of the following frame
(under any key input) it does not intersect the player paddle; when the
collision test finds the enemy paddle the ball was moving right, it leaves the
frame moving left at x = 217, and at the collision test of the following frame
it does not intersect the enemy paddle. -/
theorem C18_horizontal_invariant (regs : List Nat) (reg reg2 : Nat) :
    ((run regs initial).ball_vel.x = 2 ∨ (run regs initial).ball_vel.x = -2) ∧
    ((run regs initial).ball_vel.x = 2 → 15 ≤ (run regs initial).ball_pos.x) ∧
    ((run regs initial).ball_vel.x = -2 → (run regs initial).ball_pos.x ≤ 217) ∧
    ((run regs initial).frames_until_ball_release = 0 →
      intersects (ballRect (movePaddles reg (run regs initial)))
        (playerRect (movePaddles reg (run regs initial))) = true →
      (run regs initial).ball_vel.x = -2 ∧
      (step reg (run regs initial)).ball_vel.x = 2 ∧
      (step reg (run regs initial)).ball_pos.x = 15 ∧
      intersects (ballRect (movePaddles reg2 (step reg (run regs initial))))
        (playerRect (movePaddles reg2 (step reg (run regs initial)))) = false) ∧
    ((run regs initial).frames_until_ball_release = 0 →
      intersects (ballRect (movePaddles reg (run regs initial)))
        (enemyRect (movePaddles reg (run regs initial))) = true →
      (run regs initial).ball_vel.x = 2 ∧
      (step reg (run regs initial)).ball_vel.x = -2 ∧
      (step reg (run regs initial)).ball_pos.x = 217 ∧
      intersects (ballRect (movePaddles reg2 (step reg (run regs initial))))
        (enemyRect (movePaddles reg2 (step reg (run regs initial)))) = false) := by
  have hinv := run_horizInv regs
  have hcol := run_columns regs
  have hcol2 : Columns (step reg (run regs initial)) := by
    obtain ⟨a, b⟩ := step_columns reg (run regs initial)
    exact ⟨by rw [a]; exact hcol.1, by rw [b]; exact hcol.2⟩
  obtain ⟨cp, ce⟩ := movePaddles_columns reg _ hcol
  obtain ⟨_, _, p3, p4, _⟩ := movePaddles_frame reg (run regs initial)
  obtain ⟨hv, hr, hl⟩ := hinv
  refine ⟨hv, hr, hl, ?_, ?_⟩
  · intro hc hp
    obtain ⟨sx, sv⟩ := step_horizontal reg _ hc
    have hp2 := hp
    rw [intersects_player_iff, cp, p3] at hp2
    have hleft : (run regs initial).ball_vel.x = -2 := by omega
    have e : collide (movePaddles reg (run regs initial)) =
        hitPlayer (movePaddles reg (run regs initial)) := collide_of_player _ hp
    have e1 : (collide (movePaddles reg (run regs initial))).ball_pos.x = 13 := by
      rw [e]; show (movePaddles reg (run regs initial)).player_pos.x + paddle_width = 13
      rw [cp]; decide
    have e2 : (collide (movePaddles reg (run regs initial))).ball_vel.x = 2 := by
      rw [e]; show -(movePaddles reg (run regs initial)).ball_vel.x = 2
      rw [p4, hleft]; decide
    have hx15 : (step reg (run regs initial)).ball_pos.x = 15 := by
      rw [sx, e1, e2]; decide
    refine ⟨hleft, by rw [sv, e2], hx15, ?_⟩
    exact (clear_of_paddles reg2 _ hcol2).1 (by rw [hx15])
  · intro hc he
    obtain ⟨sx, sv⟩ := step_horizontal reg _ hc
    have he2 := he
    rw [intersects_enemy_iff, ce, p3] at he2
    have hright : (run regs initial).ball_vel.x = 2 := by omega
    have hp : intersects (ballRect (movePaddles reg (run regs initial)))
        (playerRect (movePaddles reg (run regs initial))) = false := by
      rw [Bool.eq_false_iff, Ne, intersects_player_iff, cp, p3]; omega
    have e : collide (movePaddles reg (run regs initial)) =
        hitEnemy (movePaddles reg (run regs initial)) := collide_of_enemy _ hp he
    have e1 : (collide (movePaddles reg (run regs initial))).ball_pos.x = 219 := by
      rw [e]; show (movePaddles reg (run regs initial)).enemy_pos.x - paddle_width = 219
      rw [ce]; decide
    have e2 : (collide (movePaddles reg (run regs initial))).ball_vel.x = -2 := by
      rw [e]; show -(movePaddles reg (run regs initial)).ball_vel.x = -2
      rw [p4, hright]
    have hx217 : (step reg (run regs initial)).ball_pos.x = 217 := by
      rw [sx, e1, e2]; decide
    refine ⟨hright, by rw [sv, e2], hx217, ?_⟩
    exact (clear_of_paddles reg2 _ hcol2).2 (by rw [hx217])

set_option maxRecDepth 1000000 in
theorem C18_horizontal_invariant_witness :
    ((run (List.replicate 131 noKeys) initial).frames_until_ball_release = 0 ∧
      intersects (ballRect (movePaddles noKeys (run (List.replicate 131 noKeys) initial)))
        (enemyRect (movePaddles noKeys (run (List.replicate 131 noKeys) initial))) = true) ∧
    ((run (List.replicate 131 noKeys) initial).ball_vel.x = 2 ∧
      (step noKeys (run (List.replicate 131 noKeys) initial)).ball_vel.x = -2 ∧
      (step noKeys (run (List.replicate 131 noKeys) initial)).ball_pos.x = 217 ∧
      intersects
        (ballRect (movePaddles upKey (step noKeys (run (List.replicate 131 noKeys) initial))))
        (enemyRect (movePaddles upKey (step noKeys (run (List.replicate 131 noKeys) initial)))) =
        false) ∧
    ((run (List.replicate 235 noKeys) initial).frames_until_ball_release = 0 ∧
      intersects (ballRect (movePaddles noKeys (run (List.replicate 235 noKeys) initial)))
        (playerRect (movePaddles noKeys (run (List.replicate 235 noKeys) initial))) = true) ∧
    ((run (List.replicate 235 noKeys) initial).ball_vel.x = -2 ∧
      (step noKeys (run (List.replicate 235 noKeys) initial)).ball_vel.x = 2 ∧
      (step noKeys (run (List.replicate 235 noKeys) initial)).ball_pos.x = 15 ∧
      intersects
        (ballRect (movePaddles upKey (step noKeys (run (List.replicate 235 noKeys) initial))))
        (playerRect (movePaddles upKey (step noKeys (run (List.replicate 235 noKeys) initial)))) =
        false) :=
  ⟨by decide,
    (C18_horizontal_invariant (List.replicate 131 noKeys) noKeys upKey).2.2.2.2
      (by decide) (by decide),
    by decide,
    (C18_horizontal_invariant (List.replicate 235 noKeys) noKeys upKey).2.2.2.1
      (by decide) (by decide)⟩

/-- C19 (respawn position). For every in-bounds state with countdown 0, with
the player paddle in its column x = 5, in which a horizontal miss occurs under
the key input (`ball.x ≤ 0` or `ball.x ≥ 232`, and the collision tests of the
frame find neither paddle): the ball position at the end of the frame is
`(player.x + 2 * paddle_width + 2, player.y' + paddle_height / 2 -
ball_height / 2 + 1) = (23, player.y' + 13)`, where `player.y'` is the player
paddle's position after this frame's movement; it is the respawn point of
line 123 advanced by one step of the start velocity, and the vertical bounce
of line 128 does not fire in the frame. -/
theorem C19_respawn_position (reg : Nat) (s : State) (hb : InBounds s)
    (hc : s.frames_until_ball_release = 0)
    (hpx : s.player_pos.x = 5)
    (hx : s.ball_pos.x ≤ 0 ∨ s.ball_pos.x ≥ 232)
    (hp : intersects (ballRect (movePaddles reg s)) (playerRect (movePaddles reg s)) = false)
    (he : intersects (ballRect (movePaddles reg s)) (enemyRect (movePaddles reg s)) = false) :
    (step reg s).player_pos.y = (movePlayer reg s).player_pos.y ∧
    (step reg s).ball_pos =
      ⟨s.player_pos.x + 2 * paddle_width + 2,
        (movePlayer reg s).player_pos.y + paddle_height / 2 - ball_height / 2 + 1⟩ ∧
    (step reg s).ball_pos = ⟨23, (movePlayer reg s).player_pos.y + 13⟩ ∧
    (step reg s).ball_pos =
      ⟨(respawn (movePaddles reg s)).ball_pos.x + start_ball_vel.x,
        (respawn (movePaddles reg s)).ball_pos.y + start_ball_vel.y⟩ ∧
    wallBounce (respawn (movePaddles reg s)) = respawn (movePaddles reg s) := by
  obtain ⟨p1, _, p3, _, _⟩ := movePaddles_frame reg s
  obtain ⟨q1, _, _, _, _⟩ := movePlayer_frame reg s
  have b := movePlayer_y_bounds reg s hb.1
  have hx2 : (movePaddles reg s).ball_pos.x ≤ 0 ∨ (movePaddles reg s).ball_pos.x ≥ 232 := by
    rw [p3]; exact hx
  have hb2 : 0 ≤ (movePaddles reg s).player_pos.y ∧ (movePaddles reg s).player_pos.y ≤ 128 := by
    rw [p1]; exact b
  have hw := wallBounce_respawn_of_miss _ hb2 hx2
  have hr : respawn (movePaddles reg s) =
      { movePaddles reg s with
        ball_vel := ⟨2, 1⟩
        ball_pos := ⟨(movePaddles reg s).player_pos.x + 16, (movePaddles reg s).player_pos.y + 12⟩
        frames_until_ball_release := 32 } := by
    unfold respawn
    rw [if_pos (by rw [ball_max_clamp_x]; exact hx2)]
    simp only [start_ball_vel, paddle_width, paddle_height, ball_height]
    norm_num
    omega
  have sp := (step_paddles reg s hc).1
  have hpos := (step_of_miss reg s hc hb.1 hx hp he).2.2
  rw [sp, hpx] at hpos
  have h23 : clamp (5 + 18) 0 232 = 23 := by decide
  rw [h23] at hpos
  refine ⟨by rw [sp], ?_, hpos, ?_, by rw [hw, hr]⟩
  · rw [hpos, hpx]
    simp only [paddle_width, paddle_height, ball_height]
    norm_num
    omega
  · rw [hpos, hr, p1]
    simp only [start_ball_vel, q1, hpx]
    norm_num
    omega

theorem C19_respawn_position_witness :
    (step upKey (mkState 5 96 227 96 0 60 (-2) 1 0)).player_pos.y = 94 ∧
    (step upKey (mkState 5 96 227 96 0 60 (-2) 1 0)).ball_pos = ⟨23, 107⟩ ∧
    (step upKey (mkState 5 96 227 96 0 60 (-2) 1 0)).ball_pos =
      ⟨23, (movePlayer upKey (mkState 5 96 227 96 0 60 (-2) 1 0)).player_pos.y + 13⟩ :=
  ⟨by decide, by decide,
    (C19_respawn_position upKey (mkState 5 96 227 96 0 60 (-2) 1 0) (by decide) (by decide)
      (by decide) (by decide) (by decide) (by decide)).2.2.1⟩

/-- C20 (both keys held). For every in-bounds state with countdown 0 in which
both "up" and "down" are held, the player paddle is moved up and then down:
`player.y' = clamp (clamp (player.y - 2) 0 128 + 2) 0 128`; this is `player.y`
whenever `player.y ≥ 2`, and it is 2 when `player.y < 2`. -/
theorem C20_up_and_down (reg : Nat) (s : State) (hb : InBounds s)
    (hc : s.frames_until_ball_release = 0)
    (hu : upPressed reg) (hd : downPressed reg) :
    (step reg s).player_pos.y = clamp (clamp (s.player_pos.y - 2) 0 128 + 2) 0 128 ∧
    (2 ≤ s.player_pos.y → (step reg s).player_pos.y = s.player_pos.y) ∧
    (s.player_pos.y < 2 → (step reg s).player_pos.y = 2) := by
  obtain ⟨h0, h1⟩ := hb.1
  unfold upPressed at hu
  unfold downPressed at hd
  have e : (step reg s).player_pos.y = clamp (clamp (s.player_pos.y - 2) 0 128 + 2) 0 128 := by
    rw [(step_paddles reg s hc).1]
    unfold movePlayer
    simp only [if_pos hu, if_pos hd, player_velocity, paddle_max_y_eq]
  refine ⟨e, ?_, ?_⟩
  · intro h; rw [e]; unfold clamp; split_ifs <;> omega
  · intro h; rw [e]; unfold clamp; split_ifs <;> omega

theorem C20_up_and_down_witness :
    (upPressed upDownKeys ∧ downPressed upDownKeys) ∧
    (step upDownKeys (mkState 5 1 227 96 100 60 2 1 0)).player_pos.y = 2 ∧
    (step upDownKeys (mkState 5 1 227 96 100 60 2 1 0)).player_pos.y =
      clamp (clamp (1 - 2) 0 128 + 2) 0 128 :=
  ⟨by decide, by decide,
    (C20_up_and_down upDownKeys (mkState 5 1 227 96 100 60 2 1 0) (by decide) (by decide)
      (by decide) (by decide)).1⟩

end GBAPong
